import Mathlib

/-!
Verification of the portfolio generation and publication pipeline of
src/server.js (the `/api/generate` handler): request validation, content
sanitization, template rendering by global placeholder substitution, remote
repository provisioning, file commit and cleanup.

Strings are modelled as `List Char` where substitution is analysed.
`replaceAll p r s` models JavaScript `s.replace(/p/g, r)` for a literal
pattern `p`: leftmost, non-overlapping matches, scanning resumes after each
replacement, the replacement text itself is not rescanned, and the string
replacement undergoes the GetSubstitution `$`-expansion of
`String.prototype.replace`.
-/

namespace EPort

/-- Test `begins p s`: `p` is an initial run of `s`. -/
def begins : List Char → List Char → Bool
  | [], _ => true
  | _ :: _, [] => false
  | a :: p, b :: s => a == b && begins p s

/-- Test `hasSub n s`: `n` occurs contiguously somewhere in `s`. -/
def hasSub (n : List Char) : List Char → Bool
  | [] => n.isEmpty
  | c :: s => begins n (c :: s) || hasSub n s

/-- Literal-splice substitution: replace each non-overlapping match of `p`
by the text `r` verbatim, scanning left to right and never rescanning the
inserted text. This is the analysis device the chain lemmas are stated
over; `replaceAll` below — the model of the source's `.replace` — reduces
to it whenever the replacement text contains no `$` character. -/
def spliceAll (p r : List Char) : List Char → List Char
  | [] => []
  | c :: s =>
    if begins p (c :: s) && !p.isEmpty then
      r ++ spliceAll p r (s.drop (p.length - 1))
    else
      c :: spliceAll p r s
  termination_by s => s.length
  decreasing_by
    · simp only [List.length_cons, List.length_drop]
      omega
    · simp

/-- Test that `s` contains no dollar character, so that it carries no
`$`-substitution pattern of `String.prototype.replace`. -/
def noDollar (s : List Char) : Bool := s.all fun c => c != '$'

/-- The backquote character, as used by the `$`-substitution pattern that
inserts the text preceding the match. -/
def backqCh : Char := Char.ofNat 96

/-- The single-quote character, as used by the `$`-substitution pattern
that inserts the text following the match. -/
def quoteCh : Char := Char.ofNat 39

/-- GetSubstitution of `String.prototype.replace` for a string replacement
and a capture-free pattern such as `/\x7bname\x7d/g`: `$$` yields a
dollar, `$&` the matched text, `$` + backquote the part of the subject
before the match, `$` + quote the part after it; any other `$` sequence —
including `$n`, since the pattern has no capture groups — is literal
text. -/
def expandDollar (matched pre post : List Char) : List Char → List Char
  | [] => []
  | c :: rest =>
    if c = '$' then
      match rest with
      | [] => [c]
      | d :: rest2 =>
        if d = '$' then c :: expandDollar matched pre post rest2
        else if d = '&' then matched ++ expandDollar matched pre post rest2
        else if d = backqCh then pre ++ expandDollar matched pre post rest2
        else if d = quoteCh then post ++ expandDollar matched pre post rest2
        else c :: d :: expandDollar matched pre post rest2
    else c :: expandDollar matched pre post rest

/-- Model of JavaScript `String.prototype.replace` with a global literal
pattern and a string replacement: scan left to right; at each
non-overlapping match splice in the GetSubstitution expansion of the
replacement text (computed from the matched text and the parts of the
subject before and after the match); continue after the match without
rescanning the inserted text. The accumulator `pre` holds the
already-scanned part of the subject, reversed. -/
def replaceAllAux (p r : List Char) : List Char → List Char → List Char
  | _, [] => []
  | pre, c :: s =>
    if begins p (c :: s) && !p.isEmpty then
      expandDollar p pre.reverse (s.drop (p.length - 1)) r ++
        replaceAllAux p r (p.reverse ++ pre) (s.drop (p.length - 1))
    else
      c :: replaceAllAux p r (c :: pre) s
  termination_by _ s => s.length
  decreasing_by
    · simp only [List.length_cons, List.length_drop]
      omega
    · simp

/-- Model of `s.replace(/p/g, r)` for a literal capture-free pattern `p`
and a string replacement `r`. -/
def replaceAll (p r : List Char) (s : List Char) : List Char :=
  replaceAllAux p r [] s

/-- Test `refutedIn p q`: the candidate match of `p` at the start of `q` is
refuted by a character of `q` itself (before either list runs out). -/
def refutedIn : List Char → List Char → Bool
  | [], _ => false
  | _ :: _, [] => false
  | a :: p, b :: q => a != b || refutedIn p q

/-- Every candidate start position inside `q` is refuted within `q`. -/
def allRefuted (p : List Char) : List Char → Bool
  | [] => true
  | c :: s => refutedIn p (c :: s) && allRefuted p s

/-- Single-pass check that a chunk refutes, within itself, every candidate
match of every token in `toks`, where all tokens start with a brace:
positions not holding a brace are refuted immediately. -/
def chunkOK (toks : List (List Char)) : List Char → Bool
  | [] => true
  | c :: s =>
    (if c == '{' then toks.all fun p => refutedIn p (c :: s) else true) &&
      chunkOK toks s

/-- Concatenation of a list of character lists. -/
def joinl : List (List Char) → List Char
  | [] => []
  | q :: qs => q ++ joinl qs

/-- The chained substitution: apply `replaceAll` for each (pattern,
replacement) pair in order, as the source's `.replace(...).replace(...)`
chain does. -/
def chainReplace : List (List Char × List Char) → List Char → List Char
  | [], s => s
  | (p, r) :: rest, s => chainReplace rest (replaceAll p r s)

/-- The same chain over the literal-splice substitution; `chainReplace`
agrees with it when every replacement is dollar-free. -/
def chainSplice : List (List Char × List Char) → List Char → List Char
  | [], s => s
  | (p, r) :: rest, s => chainSplice rest (spliceAll p r s)

/-- Replace each part that is exactly the token `p` by the replacement. -/
def fillHole (p r : List Char) (ps : List (List Char)) : List (List Char) :=
  ps.map fun q => if q = p then r else q

/-- The substitution chain acting on a decomposition into parts. -/
def chainParts : List (List Char × List Char) → List (List Char) → List (List Char)
  | [], ps => ps
  | (p, r) :: rest, ps => chainParts rest (fillHole p r ps)

/-- Test that `s` contains no brace character. -/
def noBrace (s : List Char) : Bool := s.all fun c => c != '{' && c != '}'

/-- Test that `s` contains no `<` character. -/
def noLt (s : List Char) : Bool := s.all fun c => c != '<'

/-- Test that `s` contains neither a brace — a placeholder delimiter —
nor a dollar — a `$`-substitution trigger of `.replace`. -/
def plainRep (s : List Char) : Bool := noBrace s && noDollar s

/-- Every nonempty proper tail of `p` is refuted within `n`: no match of
`p` can start strictly before `n` and reach into `n` undetected. -/
def tailsRef : List Char → List Char → Bool
  | [], _ => true
  | _ :: p, n => (p.isEmpty || refutedIn p n) && tailsRef p n

/-- Decimal digit characters. -/
def digitCh : Nat → Char
  | 0 => '0' | 1 => '1' | 2 => '2' | 3 => '3' | 4 => '4'
  | 5 => '5' | 6 => '6' | 7 => '7' | 8 => '8' | _ => '9'

/-- Digit-list builder with a structural fuel argument so the kernel can
evaluate it; the fuel `n + 1` always suffices. -/
def natDigAux : Nat → Nat → List Char
  | 0, _ => []
  | fuel + 1, n =>
    if n < 10 then [digitCh n]
    else natDigAux fuel (n / 10) ++ [digitCh (n % 10)]

/-- Decimal representation of a natural number (JavaScript number-to-string
for the non-negative integers this program interpolates). -/
def natDig (n : Nat) : List Char := natDigAux (n + 1) n

def natChars (n : Nat) : String := ⟨natDig n⟩

/-- JavaScript number-to-string for integers. -/
def intRepr (i : Int) : String :=
  if i < 0 then "-" ++ natChars i.natAbs else natChars i.toNat

/-- JavaScript `\s` whitespace class (code points used by the regexes of
src/server.js lines 334 and 420). -/
def isJsWs (c : Char) : Bool :=
  let n := c.toNat
  n == 32 || n == 9 || n == 10 || n == 11 || n == 12 || n == 13 ||
  n == 160 || n == 5760 || (8192 ≤ n && n ≤ 8202) ||
  n == 8232 || n == 8233 || n == 8239 || n == 8287 || n == 12288 || n == 65279

/-- Tag-removal scanner: when the flag is set the scanner is inside a
markup tag and discards characters up to the closing `>`. -/
def stripAux : Bool → List Char → List Char
  | _, [] => []
  | true, c :: rest => if c = '>' then stripAux false rest else stripAux true rest
  | false, c :: rest => if c = '<' then stripAux true rest else c :: stripAux false rest

/-- Remove every markup-tag span from a character list. -/
def stripTags (cs : List Char) : List Char := stripAux false cs

/-- Modelled from the spec: the `sanitize-html` dependency is not part of
this repository; per the spec (§4.1) the Sanitizer "strips any
markup/script content, returning plain-safe text preserving printable
characters" and never throws. Modelled as removal of every markup-tag
span; text outside tags, including brace characters, passes through. -/
def sanitizeHtml (s : String) : String := ⟨stripTags s.data⟩

/-- Modelled from the spec (§4.1): "absent input maps to empty string". -/
def sanitizeOpt : Option String → String
  | none => ""
  | some s => sanitizeHtml s

/-- JavaScript `||` on strings: the empty string is falsy. -/
def jsOrStr (a b : String) : String := if a.isEmpty then b else a

/-- Model of `Array.prototype.join(sep)`. -/
def interStrs (sep : String) : List String → String
  | [] => ""
  | [s] => s
  | s :: rest => s ++ sep ++ interStrs sep rest

/-- Model of `Array.prototype.join('')`. -/
def joinStr : List String → String
  | [] => ""
  | s :: rest => s ++ joinStr rest

/-- Model of `Array.prototype.map` with the element index, as in `(x, index) => ...`. -/
def mapWithIndex (f : Nat → α → β) : Nat → List α → List β
  | _, [] => []
  | i, a :: as => f i a :: mapWithIndex f (i + 1) as

/-- JSON values, as produced by `JSON.parse`. Numbers are modelled as
integers (the program only interpolates and compares them). -/
inductive JsonVal where
  | str (s : String)
  | num (n : Int)
  | jbool (b : Bool)
  | jnull
  | arr (xs : List JsonVal)
  | obj (flds : List (String × JsonVal))

/-- JavaScript truthiness of a JSON value. -/
def jsTruthy : JsonVal → Bool
  | .str s => !s.isEmpty
  | .num n => n != 0
  | .jbool b => b
  | .jnull => false
  | .arr _ => true
  | .obj _ => true

def isNullV : JsonVal → Bool
  | .jnull => true
  | _ => false

mutual

/-- JavaScript string conversion of a value, as used by template-literal
interpolation. -/
def jsDisplay : JsonVal → String
  | .str s => s
  | .num n => intRepr n
  | .jbool true => "true"
  | .jbool false => "false"
  | .jnull => "null"
  | .arr xs => interStrs "," (jsArrElems xs)
  | .obj _ => "[object Object]"

/-- Element strings for array-to-string conversion (`null` renders empty). -/
def jsArrElems : List JsonVal → List String
  | [] => []
  | v :: rest => (if isNullV v then "" else jsDisplay v) :: jsArrElems rest

end

/-- The `.length` property: defined for arrays and strings, `undefined`
(here `none`) otherwise. -/
def jsLength : JsonVal → Option Nat
  | .arr xs => some xs.length
  | .str s => some s.length
  | _ => none

/-- Indexing `v[i]`: array element, string character, or a numeric-keyed
object property; `undefined` (`none`) otherwise. -/
def jsIndex : JsonVal → Nat → Option JsonVal
  | .arr xs, i => xs.get? i
  | .str s, i => (s.data.get? i).map fun c => .str ⟨[c]⟩
  | .obj flds, i => (flds.find? fun kv => kv.1 == natChars i).map (·.2)
  | _, _ => none

/-- Property access `v.k`: `undefined` (`none`) unless `v` is an object
with the property. -/
def jget : JsonVal → String → Option JsonVal
  | .obj flds, k => (flds.find? fun kv => kv.1 == k).map (·.2)
  | _, _ => none

/-- JavaScript `x || d` for a possibly-undefined value. -/
def jsOrVal (v : Option JsonVal) (d : JsonVal) : JsonVal :=
  match v with
  | some x => if jsTruthy x then x else d
  | none => d

/-- Model of `sanitizeHtml` applied to a possibly-undefined JSON value: absent and
`null` inputs map to the empty string (spec §4.1), other values are
sanitized via their string form. -/
def sanitizeVal : Option JsonVal → String
  | none => ""
  | some .jnull => ""
  | some v => sanitizeHtml (jsDisplay v)

/-- The color palette record passed to the template constructor. -/
structure Colors where
  bodyBg : String
  text : String
  navBg : String
  navText : String
  accent : String
  accentGradient : String
  accentHover : String
  accentHoverSolid : String
  heroBg : String
  heroOverlay : String
  heroText : String
  buttonBg : String
  buttonHover : String
  buttonText : String
  sectionBg : String
  skillBg : String
  skillHoverText : String
  progressBg : String
  projectBg : String
  secondaryText : String
  footerBg : String

/-- Placeholder tokens of the skeleton (written with escaped braces). -/
def phName : String := "\x7bname\x7d"
def phProfession : String := "\x7bprofession\x7d"
def phTagline : String := "\x7btagline\x7d"
def phSummary : String := "\x7bsummary\x7d"
def phAbout : String := "\x7babout\x7d"
def phEmail : String := "\x7bemail\x7d"
def phLinkedin : String := "\x7blinkedin\x7d"
def phPhone : String := "\x7bphone\x7d"
def phKeywords : String := "\x7bkeywords\x7d"
def phSkills : String := "\x7bskills\x7d"
def phProjects : String := "\x7bprojects\x7d"

/-- Transcription of the `baseTemplate` template literal of src/server.js
(lines 57-233): the backtick string with its interpolated color fields,
with the literal segments split exactly at placeholder-token boundaries. -/
def baseTemplate (colors : Colors) : String :=
  "<!DOCTYPE html>\n<html lang=\"en\">\n<head>\n  <meta charset=\"UTF-8\" />\n  <meta name=\"viewport\" content=\"width=device-width, initial-scale=1.0\" />\n  <meta name=\"description\" content=\"" ++
  phName ++ " - Professional Portfolio | Expertise in " ++ phProfession ++
  "\" />\n  <meta name=\"keywords\" content=\"" ++ phKeywords ++ ", portfolio, " ++ phProfession ++
  "\" />\n  <title>" ++ phName ++ " | " ++ phProfession ++
  " Portfolio</title>\n  <link href=\"https://fonts.googleapis.com/css2?family=Inter:wght@400;600;700&family=Poppins:wght@500;700&display=swap\" rel=\"stylesheet\">\n  <link href=\"https://cdn.jsdelivr.net/npm/aos@2.3.1/dist/aos.css\" rel=\"stylesheet\">\n  <style>\n    * \x7b margin: 0; padding: 0; box-sizing: border-box; \x7d\n    body \x7b font-family: 'Inter', sans-serif; background: " ++
  colors.bodyBg ++ "; color: " ++ colors.text ++
  "; line-height: 1.8; overflow-x: hidden; \x7d\n    nav \x7b background: " ++ colors.navBg ++
  "; position: sticky; top: 0; z-index: 1000; padding: 1.5rem 2rem; box-shadow: 0 4px 15px rgba(0, 0, 0, 0.2); \x7d\n    .nav-container \x7b max-width: 1400px; margin: 0 auto; display: flex; justify-content: space-between; align-items: center; \x7d\n    .nav-logo \x7b font-family: 'Poppins', sans-serif; font-size: 2.2rem; color: " ++
  colors.accent ++
  "; letter-spacing: 1.5px; \x7d\n    .nav-links \x7b display: flex; gap: 3rem; \x7d\n    .nav-links a \x7b color: " ++
  colors.navText ++
  "; text-decoration: none; font-size: 1.1rem; font-weight: 600; transition: color 0.3s, transform 0.3s; \x7d\n    .nav-links a:hover, .nav-links a.active \x7b color: " ++
  colors.accent ++
  "; transform: translateY(-3px); \x7d\n    .hamburger \x7b display: none; font-size: 2rem; color: " ++
  colors.navText ++ "; cursor: pointer; \x7d\n    .hero \x7b background: " ++ colors.heroBg ++
  "; height: 80vh; display: flex; align-items: center; justify-content: center; text-align: center; position: relative; overflow: hidden; \x7d\n    .hero::before \x7b content: ''; position: absolute; top: 0; left: 0; width: 100%; height: 100%; background: " ++
  colors.heroOverlay ++
  "; z-index: 1; \x7d\n    .hero-content \x7b position: relative; z-index: 2; max-width: 1100px; padding: 2rem; \x7d\n    .hero h1 \x7b font-family: 'Poppins', sans-serif; font-size: 4rem; color: " ++
  colors.heroText ++
  "; margin-bottom: 1.5rem; text-shadow: 0 3px 6px rgba(0, 0, 0, 0.4); \x7d\n    .hero p \x7b font-size: 1.5rem; color: " ++
  colors.accent ++
  "; margin-bottom: 3rem; \x7d\n    .cta-button \x7b display: inline-block; padding: 1.2rem 3.5rem; background: " ++
  colors.buttonBg ++ "; color: " ++ colors.buttonText ++
  "; text-decoration: none; border-radius: 50px; font-weight: 600; font-size: 1.2rem; transition: background 0.3s, transform 0.3s, box-shadow 0.3s; \x7d\n    .cta-button:hover \x7b background: " ++
  colors.buttonHover ++
  "; transform: scale(1.05); box-shadow: 0 6px 20px rgba(0, 0, 0, 0.3); \x7d\n    .container \x7b max-width: 1400px; margin: 5rem auto; padding: 0 2rem; \x7d\n    .section \x7b background: " ++
  colors.sectionBg ++
  "; border-radius: 20px; padding: 4rem; margin-bottom: 5rem; box-shadow: 0 12px 40px rgba(0, 0, 0, 0.15); width: 100%; max-width: 1200px; transition: transform 0.4s; \x7d\n    .section:hover \x7b transform: translateY(-8px); \x7d\n    h2 \x7b font-family: 'Poppins', sans-serif; font-size: 2.8rem; color: " ++
  colors.text ++
  "; margin-bottom: 2.5rem; position: relative; \x7d\n    h2::after \x7b content: ''; position: absolute; bottom: -0.8rem; left: 0; width: 100px; height: 5px; background: " ++
  colors.accentGradient ++
  "; \x7d\n    .headshot \x7b width: 300px; height: 300px; border-radius: 50%; border: 5px solid " ++
  colors.accent ++
  "; box-shadow: 0 12px 30px rgba(0, 0, 0, 0.25); object-fit: cover; object-position: center; margin: 0 auto 2.5rem; display: block; \x7d\n    .headshot:hover \x7b transform: scale(1.05); box-shadow: 0 15px 35px rgba(0, 0, 0, 0.3); \x7d\n    .skills-grid \x7b display: grid; grid-template-columns: repeat(auto-fit, minmax(220px, 1fr)); gap: 2.5rem; \x7d\n    .skill-item \x7b background: " ++
  colors.skillBg ++
  "; padding: 1.8rem; border-radius: 15px; text-align: center; font-weight: 600; transition: background 0.3s, transform 0.3s, box-shadow 0.3s; \x7d\n    .skill-item:hover \x7b background: " ++
  colors.accentGradient ++ "; color: " ++ colors.skillHoverText ++
  "; transform: translateY(-10px); box-shadow: 0 10px 25px rgba(0, 0, 0, 0.2); \x7d\n    .progress-bar \x7b height: 10px; background: " ++
  colors.progressBg ++
  "; border-radius: 5px; margin-top: 1.2rem; overflow: hidden; \x7d\n    .progress \x7b height: 100%; background: " ++
  colors.accentGradient ++ "; transition: width 1.5s ease-in-out; \x7d\n    .project \x7b background: " ++
  colors.projectBg ++
  "; padding: 3rem; border-radius: 20px; margin-bottom: 3rem; transition: transform 0.4s, box-shadow 0.4s; \x7d\n    .project:hover \x7b transform: translateY(-8px); box-shadow: 0 12px 30px rgba(0, 0, 0, 0.2); \x7d\n    .project h3 \x7b font-family: 'Poppins', sans-serif; font-size: 2rem; margin-bottom: 1.2rem; color: " ++
  colors.text ++ "; \x7d\n    .project p \x7b margin-bottom: 1.8rem; color: " ++ colors.secondaryText ++
  "; font-size: 1.1rem; \x7d\n    .project a \x7b display: inline-block; color: " ++ colors.accent ++
  "; text-decoration: none; font-weight: 600; padding: 0.8rem 2rem; border-radius: 10px; transition: background 0.3s, transform 0.3s; \x7d\n    .project a:hover \x7b background: " ++
  colors.accentHover ++ "; transform: scale(1.05); \x7d\n    .project-badge \x7b background: " ++
  colors.accent ++ "; color: " ++ colors.buttonText ++
  "; padding: 0.6rem 1.2rem; border-radius: 25px; font-size: 1rem; font-weight: 600; \x7d\n    .resume-content, .contact-content \x7b text-align: center; \x7d\n    .resume-button, .contact-links a \x7b display: inline-block; padding: 1.2rem 3.5rem; background: " ++
  colors.buttonBg ++ "; color: " ++ colors.buttonText ++
  "; text-decoration: none; border-radius: 50px; font-weight: 600; font-size: 1.2rem; transition: background 0.3s, transform 0.3s, box-shadow 0.3s; \x7d\n    .resume-button:hover, .contact-links a:hover \x7b background: " ++
  colors.buttonHover ++
  "; transform: scale(1.05); box-shadow: 0 6px 20px rgba(0, 0, 0, 0.3); \x7d\n    .contact-links \x7b display: flex; justify-content: center; gap: 2rem; flex-wrap: wrap; \x7d\n    .contact-links a \x7b padding: 1rem 2.5rem; display: flex; align-items: center; gap: 0.5rem; \x7d\n    footer \x7b background: " ++
  colors.footerBg ++ "; color: " ++ colors.navText ++
  "; text-align: center; padding: 3.5rem; \x7d\n    footer p \x7b font-size: 1.2rem; \x7d\n    footer a \x7b color: " ++
  colors.accent ++ "; text-decoration: none; transition: color 0.3s; \x7d\n    footer a:hover \x7b color: " ++
  colors.accentHoverSolid ++
  "; \x7d\n    @media (max-width: 1024px) \x7b .hero h1 \x7b font-size: 3rem; \x7d .hero p \x7b font-size: 1.3rem; \x7d \x7d\n    @media (max-width: 768px) \x7b .nav-links \x7b display: none; flex-direction: column; position: absolute; top: 80px; left: 0; width: 100%; background: " ++
  colors.navBg ++
  "; padding: 2rem; \x7d .nav-links.active \x7b display: flex; \x7d .hamburger \x7b display: block; \x7d .hero h1 \x7b font-size: 2.5rem; \x7d .hero p \x7b font-size: 1.1rem; \x7d .container \x7b margin: 3rem 1.5rem; padding: 1rem; \x7d .headshot \x7b width: 200px; height: 200px; \x7d .section \x7b padding: 2.5rem; \x7d .skills-grid \x7b grid-template-columns: 1fr; \x7d .contact-links \x7b flex-direction: column; gap: 1.5rem; \x7d \x7d\n    @media (max-width: 480px) \x7b .nav-logo \x7b font-size: 1.8rem; \x7d .hero h1 \x7b font-size: 2rem; \x7d .hero p \x7b font-size: 0.9rem; \x7d .cta-button \x7b padding: 0.8rem 2rem; font-size: 1rem; \x7d .section \x7b padding: 2rem; \x7d \x7d\n  </style>\n</head>\n<body>\n  <nav>\n    <div class=\"nav-container\">\n      <div class=\"nav-logo\">" ++
  phName ++ " | " ++ phProfession ++
  "</div>\n      <div class=\"nav-links\" id=\"nav-links\">\n        <a href=\"#home\" class=\"active\">Home</a>\n        <a href=\"#about\">About</a>\n        <a href=\"#skills\">Skills</a>\n        <a href=\"#projects\">Projects</a>\n        <a href=\"#resume\">Resume</a>\n        <a href=\"#contact\">Contact</a>\n      </div>\n      <div class=\"hamburger\" id=\"hamburger\">☰</div>\n    </div>\n  </nav>\n  <section class=\"hero\" id=\"home\">\n    <div class=\"hero-content\" data-aos=\"zoom-in\">\n      <h1>" ++
  phName ++ " | " ++ phProfession ++ "</h1>\n      <p>" ++ phTagline ++
  "</p>\n      <a href=\"#contact\" class=\"cta-button\">Connect with Me</a>\n    </div>\n  </section>\n  <div class=\"container\">\n    <section class=\"section about\" id=\"about\" data-aos=\"slide-right\">\n      <img class=\"headshot\" src=\"./headshot.jpg\" alt=\"Profile Image\" loading=\"lazy\">\n      <h2>Professional Summary</h2>\n      <p>" ++
  phSummary ++ "</p>\n      <h3 style=\"font-size: 1.8rem; margin: 2rem 0 1rem;\">About Me</h3>\n      <p>" ++
  phAbout ++
  "</p>\n    </section>\n    <section class=\"section skills\" id=\"skills\" data-aos=\"slide-left\">\n      <h2>Areas of Expertise</h2>\n      <div class=\"skills-grid\">\n        " ++
  phSkills ++
  "\n      </div>\n    </section>\n    <section class=\"section projects\" id=\"projects\" data-aos=\"fade-up\">\n      <h2>Featured Projects</h2>\n      " ++
  phProjects ++ "\n      <p style=\"text-align: center; font-style: italic; color: " ++ colors.secondaryText ++
  ";\">Additional projects available upon request.</p>\n    </section>\n    <section class=\"section resume\" id=\"resume\" data-aos=\"zoom-in\">\n      <h2>Download My Resume</h2>\n      <div class=\"resume-content\">\n        <p>Explore my detailed professional background and achievements in my resume.</p>\n        <a href=\"./resume.pdf\" download class=\"resume-button\">Download Resume</a>\n      </div>\n    </section>\n    <section class=\"section contact\" id=\"contact\" data-aos=\"zoom-in\">\n      <h2>Contact Me</h2>\n      <div class=\"contact-content\">\n        <p>Reach out to discuss opportunities or explore my work further.</p>\n        <div class=\"contact-links\">\n          <a href=\"mailto:" ++
  phEmail ++
  "\" aria-label=\"Email\">\n            <svg width=\"20\" height=\"20\" viewBox=\"0 0 24 24\" fill=\"none\" stroke=\"" ++
  colors.buttonText ++
  "\" stroke-width=\"2\"><path d=\"M4 4h16c1.1 0 2 .9 2 2v12c0 1.1-.9 2-2 2H4c-1.1 0-2-.9-2-2V6c0-1.1.9-2 2-2z\"></path><polyline points=\"22,6 12,13 2,6\"></polyline></svg>\n            Email Me\n          </a>\n          <a href=\"" ++
  phLinkedin ++
  "\" target=\"_blank\" aria-label=\"LinkedIn Profile\">\n            <svg width=\"20\" height=\"20\" viewBox=\"0 0 24 24\" fill=\"none\" stroke=\"" ++
  colors.buttonText ++
  "\" stroke-width=\"2\"><path d=\"M16 8a6 6 0 0 1 6 6v7h-4v-7a2 2 0 0 0-2-2 2 2 0 0 0-2 2v7h-4v-7a6 6 0 0 1 6-6z\"></path><rect x=\"2\" y=\"9\" width=\"4\" height=\"12\"></rect><circle cx=\"4\" cy=\"4\" r=\"2\"></circle></svg>\n            LinkedIn\n          </a>\n          <a href=\"./resume.pdf\" download aria-label=\"Download Resume\">\n            <svg width=\"20\" height=\"20\" viewBox=\"0 0 24 24\" fill=\"none\" stroke=\"" ++
  colors.buttonText ++
  "\" stroke-width=\"2\"><path d=\"M14 2H6a2 2 0 0 0-2 2v16a2 2 0 0 0 2 2h12a2 2 0 0 0 2-2V8z\"></path><polyline points=\"14 2 14 8 20 8\"></polyline><line x1=\"12\" y1=\"18\" x2=\"12\" y2=\"12\"></line><line x1=\"9\" y1=\"15\" x2=\"15\" y2=\"15\"></line></svg>\n            Download Resume\n          </a>\n        </div>\n      </div>\n    </section>\n  </div>\n  <footer>\n    <p>Contact: <a href=\"mailto:" ++
  phEmail ++ "\" aria-label=\"Email\">" ++ phEmail ++ "</a> | " ++ phPhone ++ "</p>\n    <p>© 2025 " ++ phName ++
  " | " ++ phProfession ++
  " Portfolio</p>\n  </footer>\n  <script src=\"https://cdn.jsdelivr.net/npm/aos@2.3.1/dist/aos.js\"></script>\n  <script src=\"https://cdn.jsdelivr.net/npm/vanilla-tilt@1.7.0/dist/vanilla-tilt.min.js\"></script>\n  <script>\n    AOS.init(\x7b duration: 1200, easing: 'ease-out-quart', once: true \x7d);\n    VanillaTilt.init(document.querySelectorAll('.project'), \x7b max: 8, speed: 400, glare: true, 'max-glare': 0.3 \x7d);\n    const hamburger = document.getElementById('hamburger');\n    const navLinks = document.getElementById('nav-links');\n    hamburger.addEventListener('click', () => \x7b\n      navLinks.classList.toggle('active');\n      hamburger.textContent = navLinks.classList.contains('active') ? '✕' : '☰';\n    \x7d);\n    const links = document.querySelectorAll('.nav-links a');\n    links.forEach(link => \x7b\n      link.addEventListener('click', (e) => \x7b\n        e.preventDefault();\n        const targetId = link.getAttribute('href').substring(1);\n        document.getElementById(targetId).scrollIntoView(\x7b behavior: 'smooth' \x7d);\n        links.forEach(l => l.classList.remove('active'));\n        link.classList.add('active');\n        if (window.innerWidth <= 768) \x7b\n          navLinks.classList.remove('active');\n          hamburger.textContent = '☰';\n        \x7d\n      \x7d);\n    \x7d);\n    window.addEventListener('scroll', () => \x7b\n      const sections = document.querySelectorAll('.section, .hero');\n      let current = '';\n      sections.forEach(section => \x7b\n        const sectionTop = section.offsetTop;\n        if (window.scrollY >= sectionTop - 80) \x7b\n          current = section.getAttribute('id');\n        \x7d\n      \x7d);\n      links.forEach(link => \x7b\n        link.classList.remove('active');\n        if (link.getAttribute('href').substring(1) === current) \x7b\n          link.classList.add('active');\n        \x7d\n      \x7d);\n    \x7d);\n  </script>\n</body>\n</html>"

/-- The same template, as the list of its parts (literal chunks, color
values and placeholder tokens), used to reason about the substitution chain. -/
def templateParts (colors : Colors) : List (List Char) :=
  [ ("<!DOCTYPE html>\n<html lang=\"en\">\n<head>\n  <meta charset=\"UTF-8\" />\n  <meta name=\"viewport\" content=\"width=device-width, initial-scale=1.0\" />\n  <meta name=\"description\" content=\"" : String).data,
    phName.data,
    (" - Professional Portfolio | Expertise in " : String).data,
    phProfession.data,
    ("\" />\n  <meta name=\"keywords\" content=\"" : String).data,
    phKeywords.data,
    (", portfolio, " : String).data,
    phProfession.data,
    ("\" />\n  <title>" : String).data,
    phName.data,
    (" | " : String).data,
    phProfession.data,
    (" Portfolio</title>\n  <link href=\"https://fonts.googleapis.com/css2?family=Inter:wght@400;600;700&family=Poppins:wght@500;700&display=swap\" rel=\"stylesheet\">\n  <link href=\"https://cdn.jsdelivr.net/npm/aos@2.3.1/dist/aos.css\" rel=\"stylesheet\">\n  <style>\n    * \x7b margin: 0; padding: 0; box-sizing: border-box; \x7d\n    body \x7b font-family: 'Inter', sans-serif; background: " : String).data,
    colors.bodyBg.data,
    ("; color: " : String).data,
    colors.text.data,
    ("; line-height: 1.8; overflow-x: hidden; \x7d\n    nav \x7b background: " : String).data,
    colors.navBg.data,
    ("; position: sticky; top: 0; z-index: 1000; padding: 1.5rem 2rem; box-shadow: 0 4px 15px rgba(0, 0, 0, 0.2); \x7d\n    .nav-container \x7b max-width: 1400px; margin: 0 auto; display: flex; justify-content: space-between; align-items: center; \x7d\n    .nav-logo \x7b font-family: 'Poppins', sans-serif; font-size: 2.2rem; color: " : String).data,
    colors.accent.data,
    ("; letter-spacing: 1.5px; \x7d\n    .nav-links \x7b display: flex; gap: 3rem; \x7d\n    .nav-links a \x7b color: " : String).data,
    colors.navText.data,
    ("; text-decoration: none; font-size: 1.1rem; font-weight: 600; transition: color 0.3s, transform 0.3s; \x7d\n    .nav-links a:hover, .nav-links a.active \x7b color: " : String).data,
    colors.accent.data,
    ("; transform: translateY(-3px); \x7d\n    .hamburger \x7b display: none; font-size: 2rem; color: " : String).data,
    colors.navText.data,
    ("; cursor: pointer; \x7d\n    .hero \x7b background: " : String).data,
    colors.heroBg.data,
    ("; height: 80vh; display: flex; align-items: center; justify-content: center; text-align: center; position: relative; overflow: hidden; \x7d\n    .hero::before \x7b content: ''; position: absolute; top: 0; left: 0; width: 100%; height: 100%; background: " : String).data,
    colors.heroOverlay.data,
    ("; z-index: 1; \x7d\n    .hero-content \x7b position: relative; z-index: 2; max-width: 1100px; padding: 2rem; \x7d\n    .hero h1 \x7b font-family: 'Poppins', sans-serif; font-size: 4rem; color: " : String).data,
    colors.heroText.data,
    ("; margin-bottom: 1.5rem; text-shadow: 0 3px 6px rgba(0, 0, 0, 0.4); \x7d\n    .hero p \x7b font-size: 1.5rem; color: " : String).data,
    colors.accent.data,
    ("; margin-bottom: 3rem; \x7d\n    .cta-button \x7b display: inline-block; padding: 1.2rem 3.5rem; background: " : String).data,
    colors.buttonBg.data,
    ("; color: " : String).data,
    colors.buttonText.data,
    ("; text-decoration: none; border-radius: 50px; font-weight: 600; font-size: 1.2rem; transition: background 0.3s, transform 0.3s, box-shadow 0.3s; \x7d\n    .cta-button:hover \x7b background: " : String).data,
    colors.buttonHover.data,
    ("; transform: scale(1.05); box-shadow: 0 6px 20px rgba(0, 0, 0, 0.3); \x7d\n    .container \x7b max-width: 1400px; margin: 5rem auto; padding: 0 2rem; \x7d\n    .section \x7b background: " : String).data,
    colors.sectionBg.data,
    ("; border-radius: 20px; padding: 4rem; margin-bottom: 5rem; box-shadow: 0 12px 40px rgba(0, 0, 0, 0.15); width: 100%; max-width: 1200px; transition: transform 0.4s; \x7d\n    .section:hover \x7b transform: translateY(-8px); \x7d\n    h2 \x7b font-family: 'Poppins', sans-serif; font-size: 2.8rem; color: " : String).data,
    colors.text.data,
    ("; margin-bottom: 2.5rem; position: relative; \x7d\n    h2::after \x7b content: ''; position: absolute; bottom: -0.8rem; left: 0; width: 100px; height: 5px; background: " : String).data,
    colors.accentGradient.data,
    ("; \x7d\n    .headshot \x7b width: 300px; height: 300px; border-radius: 50%; border: 5px solid " : String).data,
    colors.accent.data,
    ("; box-shadow: 0 12px 30px rgba(0, 0, 0, 0.25); object-fit: cover; object-position: center; margin: 0 auto 2.5rem; display: block; \x7d\n    .headshot:hover \x7b transform: scale(1.05); box-shadow: 0 15px 35px rgba(0, 0, 0, 0.3); \x7d\n    .skills-grid \x7b display: grid; grid-template-columns: repeat(auto-fit, minmax(220px, 1fr)); gap: 2.5rem; \x7d\n    .skill-item \x7b background: " : String).data,
    colors.skillBg.data,
    ("; padding: 1.8rem; border-radius: 15px; text-align: center; font-weight: 600; transition: background 0.3s, transform 0.3s, box-shadow 0.3s; \x7d\n    .skill-item:hover \x7b background: " : String).data,
    colors.accentGradient.data,
    ("; color: " : String).data,
    colors.skillHoverText.data,
    ("; transform: translateY(-10px); box-shadow: 0 10px 25px rgba(0, 0, 0, 0.2); \x7d\n    .progress-bar \x7b height: 10px; background: " : String).data,
    colors.progressBg.data,
    ("; border-radius: 5px; margin-top: 1.2rem; overflow: hidden; \x7d\n    .progress \x7b height: 100%; background: " : String).data,
    colors.accentGradient.data,
    ("; transition: width 1.5s ease-in-out; \x7d\n    .project \x7b background: " : String).data,
    colors.projectBg.data,
    ("; padding: 3rem; border-radius: 20px; margin-bottom: 3rem; transition: transform 0.4s, box-shadow 0.4s; \x7d\n    .project:hover \x7b transform: translateY(-8px); box-shadow: 0 12px 30px rgba(0, 0, 0, 0.2); \x7d\n    .project h3 \x7b font-family: 'Poppins', sans-serif; font-size: 2rem; margin-bottom: 1.2rem; color: " : String).data,
    colors.text.data,
    ("; \x7d\n    .project p \x7b margin-bottom: 1.8rem; color: " : String).data,
    colors.secondaryText.data,
    ("; font-size: 1.1rem; \x7d\n    .project a \x7b display: inline-block; color: " : String).data,
    colors.accent.data,
    ("; text-decoration: none; font-weight: 600; padding: 0.8rem 2rem; border-radius: 10px; transition: background 0.3s, transform 0.3s; \x7d\n    .project a:hover \x7b background: " : String).data,
    colors.accentHover.data,
    ("; transform: scale(1.05); \x7d\n    .project-badge \x7b background: " : String).data,
    colors.accent.data,
    ("; color: " : String).data,
    colors.buttonText.data,
    ("; padding: 0.6rem 1.2rem; border-radius: 25px; font-size: 1rem; font-weight: 600; \x7d\n    .resume-content, .contact-content \x7b text-align: center; \x7d\n    .resume-button, .contact-links a \x7b display: inline-block; padding: 1.2rem 3.5rem; background: " : String).data,
    colors.buttonBg.data,
    ("; color: " : String).data,
    colors.buttonText.data,
    ("; text-decoration: none; border-radius: 50px; font-weight: 600; font-size: 1.2rem; transition: background 0.3s, transform 0.3s, box-shadow 0.3s; \x7d\n    .resume-button:hover, .contact-links a:hover \x7b background: " : String).data,
    colors.buttonHover.data,
    ("; transform: scale(1.05); box-shadow: 0 6px 20px rgba(0, 0, 0, 0.3); \x7d\n    .contact-links \x7b display: flex; justify-content: center; gap: 2rem; flex-wrap: wrap; \x7d\n    .contact-links a \x7b padding: 1rem 2.5rem; display: flex; align-items: center; gap: 0.5rem; \x7d\n    footer \x7b background: " : String).data,
    colors.footerBg.data,
    ("; color: " : String).data,
    colors.navText.data,
    ("; text-align: center; padding: 3.5rem; \x7d\n    footer p \x7b font-size: 1.2rem; \x7d\n    footer a \x7b color: " : String).data,
    colors.accent.data,
    ("; text-decoration: none; transition: color 0.3s; \x7d\n    footer a:hover \x7b color: " : String).data,
    colors.accentHoverSolid.data,
    ("; \x7d\n    @media (max-width: 1024px) \x7b .hero h1 \x7b font-size: 3rem; \x7d .hero p \x7b font-size: 1.3rem; \x7d \x7d\n    @media (max-width: 768px) \x7b .nav-links \x7b display: none; flex-direction: column; position: absolute; top: 80px; left: 0; width: 100%; background: " : String).data,
    colors.navBg.data,
    ("; padding: 2rem; \x7d .nav-links.active \x7b display: flex; \x7d .hamburger \x7b display: block; \x7d .hero h1 \x7b font-size: 2.5rem; \x7d .hero p \x7b font-size: 1.1rem; \x7d .container \x7b margin: 3rem 1.5rem; padding: 1rem; \x7d .headshot \x7b width: 200px; height: 200px; \x7d .section \x7b padding: 2.5rem; \x7d .skills-grid \x7b grid-template-columns: 1fr; \x7d .contact-links \x7b flex-direction: column; gap: 1.5rem; \x7d \x7d\n    @media (max-width: 480px) \x7b .nav-logo \x7b font-size: 1.8rem; \x7d .hero h1 \x7b font-size: 2rem; \x7d .hero p \x7b font-size: 0.9rem; \x7d .cta-button \x7b padding: 0.8rem 2rem; font-size: 1rem; \x7d .section \x7b padding: 2rem; \x7d \x7d\n  </style>\n</head>\n<body>\n  <nav>\n    <div class=\"nav-container\">\n      <div class=\"nav-logo\">" : String).data,
    phName.data,
    (" | " : String).data,
    phProfession.data,
    ("</div>\n      <div class=\"nav-links\" id=\"nav-links\">\n        <a href=\"#home\" class=\"active\">Home</a>\n        <a href=\"#about\">About</a>\n        <a href=\"#skills\">Skills</a>\n        <a href=\"#projects\">Projects</a>\n        <a href=\"#resume\">Resume</a>\n        <a href=\"#contact\">Contact</a>\n      </div>\n      <div class=\"hamburger\" id=\"hamburger\">☰</div>\n    </div>\n  </nav>\n  <section class=\"hero\" id=\"home\">\n    <div class=\"hero-content\" data-aos=\"zoom-in\">\n      <h1>" : String).data,
    phName.data,
    (" | " : String).data,
    phProfession.data,
    ("</h1>\n      <p>" : String).data,
    phTagline.data,
    ("</p>\n      <a href=\"#contact\" class=\"cta-button\">Connect with Me</a>\n    </div>\n  </section>\n  <div class=\"container\">\n    <section class=\"section about\" id=\"about\" data-aos=\"slide-right\">\n      <img class=\"headshot\" src=\"./headshot.jpg\" alt=\"Profile Image\" loading=\"lazy\">\n      <h2>Professional Summary</h2>\n      <p>" : String).data,
    phSummary.data,
    ("</p>\n      <h3 style=\"font-size: 1.8rem; margin: 2rem 0 1rem;\">About Me</h3>\n      <p>" : String).data,
    phAbout.data,
    ("</p>\n    </section>\n    <section class=\"section skills\" id=\"skills\" data-aos=\"slide-left\">\n      <h2>Areas of Expertise</h2>\n      <div class=\"skills-grid\">\n        " : String).data,
    phSkills.data,
    ("\n      </div>\n    </section>\n    <section class=\"section projects\" id=\"projects\" data-aos=\"fade-up\">\n      <h2>Featured Projects</h2>\n      " : String).data,
    phProjects.data,
    ("\n      <p style=\"text-align: center; font-style: italic; color: " : String).data,
    colors.secondaryText.data,
    (";\">Additional projects available upon request.</p>\n    </section>\n    <section class=\"section resume\" id=\"resume\" data-aos=\"zoom-in\">\n      <h2>Download My Resume</h2>\n      <div class=\"resume-content\">\n        <p>Explore my detailed professional background and achievements in my resume.</p>\n        <a href=\"./resume.pdf\" download class=\"resume-button\">Download Resume</a>\n      </div>\n    </section>\n    <section class=\"section contact\" id=\"contact\" data-aos=\"zoom-in\">\n      <h2>Contact Me</h2>\n      <div class=\"contact-content\">\n        <p>Reach out to discuss opportunities or explore my work further.</p>\n        <div class=\"contact-links\">\n          <a href=\"mailto:" : String).data,
    phEmail.data,
    ("\" aria-label=\"Email\">\n            <svg width=\"20\" height=\"20\" viewBox=\"0 0 24 24\" fill=\"none\" stroke=\"" : String).data,
    colors.buttonText.data,
    ("\" stroke-width=\"2\"><path d=\"M4 4h16c1.1 0 2 .9 2 2v12c0 1.1-.9 2-2 2H4c-1.1 0-2-.9-2-2V6c0-1.1.9-2 2-2z\"></path><polyline points=\"22,6 12,13 2,6\"></polyline></svg>\n            Email Me\n          </a>\n          <a href=\"" : String).data,
    phLinkedin.data,
    ("\" target=\"_blank\" aria-label=\"LinkedIn Profile\">\n            <svg width=\"20\" height=\"20\" viewBox=\"0 0 24 24\" fill=\"none\" stroke=\"" : String).data,
    colors.buttonText.data,
    ("\" stroke-width=\"2\"><path d=\"M16 8a6 6 0 0 1 6 6v7h-4v-7a2 2 0 0 0-2-2 2 2 0 0 0-2 2v7h-4v-7a6 6 0 0 1 6-6z\"></path><rect x=\"2\" y=\"9\" width=\"4\" height=\"12\"></rect><circle cx=\"4\" cy=\"4\" r=\"2\"></circle></svg>\n            LinkedIn\n          </a>\n          <a href=\"./resume.pdf\" download aria-label=\"Download Resume\">\n            <svg width=\"20\" height=\"20\" viewBox=\"0 0 24 24\" fill=\"none\" stroke=\"" : String).data,
    colors.buttonText.data,
    ("\" stroke-width=\"2\"><path d=\"M14 2H6a2 2 0 0 0-2 2v16a2 2 0 0 0 2 2h12a2 2 0 0 0 2-2V8z\"></path><polyline points=\"14 2 14 8 20 8\"></polyline><line x1=\"12\" y1=\"18\" x2=\"12\" y2=\"12\"></line><line x1=\"9\" y1=\"15\" x2=\"15\" y2=\"15\"></line></svg>\n            Download Resume\n          </a>\n        </div>\n      </div>\n    </section>\n  </div>\n  <footer>\n    <p>Contact: <a href=\"mailto:" : String).data,
    phEmail.data,
    ("\" aria-label=\"Email\">" : String).data,
    phEmail.data,
    ("</a> | " : String).data,
    phPhone.data,
    ("</p>\n    <p>© 2025 " : String).data,
    phName.data,
    (" | " : String).data,
    phProfession.data,
    (" Portfolio</p>\n  </footer>\n  <script src=\"https://cdn.jsdelivr.net/npm/aos@2.3.1/dist/aos.js\"></script>\n  <script src=\"https://cdn.jsdelivr.net/npm/vanilla-tilt@1.7.0/dist/vanilla-tilt.min.js\"></script>\n  <script>\n    AOS.init(\x7b duration: 1200, easing: 'ease-out-quart', once: true \x7d);\n    VanillaTilt.init(document.querySelectorAll('.project'), \x7b max: 8, speed: 400, glare: true, 'max-glare': 0.3 \x7d);\n    const hamburger = document.getElementById('hamburger');\n    const navLinks = document.getElementById('nav-links');\n    hamburger.addEventListener('click', () => \x7b\n      navLinks.classList.toggle('active');\n      hamburger.textContent = navLinks.classList.contains('active') ? '✕' : '☰';\n    \x7d);\n    const links = document.querySelectorAll('.nav-links a');\n    links.forEach(link => \x7b\n      link.addEventListener('click', (e) => \x7b\n        e.preventDefault();\n        const targetId = link.getAttribute('href').substring(1);\n        document.getElementById(targetId).scrollIntoView(\x7b behavior: 'smooth' \x7d);\n        links.forEach(l => l.classList.remove('active'));\n        link.classList.add('active');\n        if (window.innerWidth <= 768) \x7b\n          navLinks.classList.remove('active');\n          hamburger.textContent = '☰';\n        \x7d\n      \x7d);\n    \x7d);\n    window.addEventListener('scroll', () => \x7b\n      const sections = document.querySelectorAll('.section, .hero');\n      let current = '';\n      sections.forEach(section => \x7b\n        const sectionTop = section.offsetTop;\n        if (window.scrollY >= sectionTop - 80) \x7b\n          current = section.getAttribute('id');\n        \x7d\n      \x7d);\n      links.forEach(link => \x7b\n        link.classList.remove('active');\n        if (link.getAttribute('href').substring(1) === current) \x7b\n          link.classList.add('active');\n        \x7d\n      \x7d);\n    \x7d);\n  </script>\n</body>\n</html>" : String).data ]

/-- The `default` palette from src/server.js. -/
def defaultColors : Colors where
  bodyBg := "linear-gradient(135deg, #f9fafb 0%, #e5e7eb 100%)"
  text := "#1f2937"
  navBg := "linear-gradient(90deg, #1e3a8a 0%, #3b82f6 100%)"
  navText := "#f9fafb"
  accent := "#f59e0b"
  accentGradient := "linear-gradient(90deg, #f59e0b, #d97706)"
  accentHover := "rgba(245, 158, 11, 0.3)"
  accentHoverSolid := "#d97706"
  heroBg := "linear-gradient(135deg, #1e3a8a 0%, #3b82f6 100%)"
  heroOverlay := "rgba(30, 58, 138, 0.7)"
  heroText := "#f9fafb"
  buttonBg := "linear-gradient(90deg, #f59e0b 0%, #d97706 100%)"
  buttonHover := "linear-gradient(90deg, #d97706 0%, #b45309 100%)"
  buttonText := "#1f2937"
  sectionBg := "rgba(255, 255, 255, 0.98)"
  skillBg := "linear-gradient(135deg, #e5e7eb 0%, #f9fafb 100%)"
  skillHoverText := "#1f2937"
  progressBg := "#e5e7eb"
  projectBg := "#f9fafb"
  secondaryText := "#6b7280"
  footerBg := "#1e3a8a"

/-- The `dark` palette from src/server.js. -/
def darkColors : Colors where
  bodyBg := "linear-gradient(135deg, #111827 0%, #1f2937 100%)"
  text := "#e5e7eb"
  navBg := "linear-gradient(90deg, #111827 0%, #1f2937 100%)"
  navText := "#e5e7eb"
  accent := "#0ea5e9"
  accentGradient := "linear-gradient(90deg, #0ea5e9, #0284c7)"
  accentHover := "rgba(14, 165, 233, 0.3)"
  accentHoverSolid := "#0284c7"
  heroBg := "linear-gradient(135deg, #111827 0%, #1f2937 100%)"
  heroOverlay := "rgba(17, 24, 39, 0.7)"
  heroText := "#e5e7eb"
  buttonBg := "linear-gradient(90deg, #0ea5e9 0%, #0284c7 100%)"
  buttonHover := "linear-gradient(90deg, #0284c7 0%, #0369a1 100%)"
  buttonText := "#111827"
  sectionBg := "rgba(31, 41, 55, 0.98)"
  skillBg := "linear-gradient(135deg, #1f2937 0%, #374151 100%)"
  skillHoverText := "#111827"
  progressBg := "#374151"
  projectBg := "#1f2937"
  secondaryText := "#9ca3af"
  footerBg := "#111827"

/-- The `vibrant` palette from src/server.js. -/
def vibrantColors : Colors where
  bodyBg := "#f9fafb"
  text := "#111827"
  navBg := "#1e3a8a"
  navText := "#ffffff"
  accent := "#0ea5e9"
  accentGradient := "linear-gradient(90deg, #0ea5e9, #2563eb)"
  accentHover := "rgba(14, 165, 233, 0.1)"
  accentHoverSolid := "#2563eb"
  heroBg := "linear-gradient(135deg, #1e3a8a 0%, #2563eb 100%)"
  heroOverlay := "rgba(30, 58, 138, 0.6)"
  heroText := "#ffffff"
  buttonBg := "linear-gradient(90deg, #0ea5e9 0%, #2563eb 100%)"
  buttonHover := "linear-gradient(90deg, #2563eb 0%, #1e3a8a 100%)"
  buttonText := "#ffffff"
  sectionBg := "#ffffff"
  skillBg := "#f1f5f9"
  skillHoverText := "#0ea5e9"
  progressBg := "#e5e7eb"
  projectBg := "#f9fafb"
  secondaryText := "#6b7280"
  footerBg := "#1e3a8a"

/-- Lookup in the `templates` object (src/server.js lines 236-306). -/
def templates (k : String) : Option String :=
  if k = "default" then some (baseTemplate defaultColors)
  else if k = "dark" then some (baseTemplate darkColors)
  else if k = "vibrant" then some (baseTemplate vibrantColors)
  else none

/-- Lookup `templates[selectedTemplate]` where the field may be absent. -/
def tmplLookup : Option String → Option String
  | none => none
  | some k => templates k

/-- Test of `/^[^\s@]+@[^\s@]+\.[^\s@]+$/` (src/server.js line 334): no
whitespace, exactly one `@` with a nonempty left part, and on the right a
`.` that has at least one character before and after it. -/
def dotInside : List Char → Bool
  | '.' :: _ :: _ => true
  | _ :: rest => dotInside rest
  | [] => false

def emailRegexTest (s : String) : Bool :=
  emailSplit s.data []
where
  emailSplit : List Char → List Char → Bool
  | [], _ => false
  | c :: rest, acc =>
    if c = '@' then
      !acc.isEmpty && rest.all (fun d => !isJsWs d && d != '@') &&
        (match rest with
         | [] => false
         | _ :: rtail => dotInside rtail) &&
      acc.all (fun d => !isJsWs d)
    else if isJsWs c then false
    else emailSplit rest (acc ++ [c])

/-- An uploaded multipart file as multer's `fileFilter` sees it. -/
structure UpFile where
  fieldname : String
  originalname : String
  mimetype : String
  size : Nat
  content : String
deriving DecidableEq

/-- The `fileFilter` of the multer configuration (src/server.js lines
33-41). -/
def fileFilterErr (f : UpFile) : Option String :=
  if f.fieldname == "cv" && f.mimetype != "application/pdf" then
    some "CV must be a PDF file"
  else if f.fieldname == "image" &&
      !(f.mimetype == "image/jpeg" || f.mimetype == "image/png") then
    some "Profile image must be a JPEG or PNG file"
  else none

/-- The `limits.fileSize` check (src/server.js line 42): 5 MiB. -/
def sizeErr (f : UpFile) : Option String :=
  if f.size > 5 * 1024 * 1024 then some "File too large" else none

/-- First upload-constraint violation among the request's files. -/
def multerCheck (cv image : Option UpFile) : Option String :=
  match cv.bind fileFilterErr with
  | some m => some m
  | none =>
    match image.bind fileFilterErr with
    | some m => some m
    | none =>
      match cv.bind sizeErr with
      | some m => some m
      | none => image.bind sizeErr

/-- Model of `path.extname` for the simple original filenames this server stores. -/
def lastDotIdx : List Char → Nat → Option Nat → Option Nat
  | [], _, acc => acc
  | c :: rest, i, acc => lastDotIdx rest (i + 1) (if c == '.' then some i else acc)

def extnameOf (s : String) : String :=
  match lastDotIdx s.data 0 none with
  | some i => if i == 0 then "" else ⟨s.data.drop i⟩
  | none => ""

/-- A stored temporary upload: the multer disk-storage path
`uploads/${Date.now()}-${fieldname}${ext}` plus the file bytes. -/
structure Stored where
  path : String
  content : String
deriving DecidableEq

def storedOf (now : Nat) (f : UpFile) : Stored :=
  ⟨"uploads/" ++ natChars now ++ "-" ++ f.fieldname ++ extnameOf f.originalname,
   f.content⟩

/-- Base64 alphabet. -/
def b64tbl (n : Nat) : Char :=
  "ABCDEFGHIJKLMNOPQRSTUVWXYZabcdefghijklmnopqrstuvwxyz0123456789+/".data.getD n '='

/-- Base64 of a byte list (`Buffer.toString('base64')`). -/
def b64chunks : List Nat → List Char
  | [] => []
  | [a] => [b64tbl (a / 4), b64tbl (a % 4 * 16), '=', '=']
  | [a, b] => [b64tbl (a / 4), b64tbl (a % 4 * 16 + b / 16), b64tbl (b % 16 * 4), '=']
  | a :: b :: c :: rest =>
    [b64tbl (a / 4), b64tbl (a % 4 * 16 + b / 16), b64tbl (b % 16 * 4 + c / 64),
     b64tbl (c % 64)] ++ b64chunks rest

def b64enc (s : String) : String := ⟨b64chunks (s.toUTF8.toList.map UInt8.toNat)⟩

/-- The parsed request body of `/api/generate`. Plain fields are the raw
multipart string fields (`none` = absent). `JSON.parse` is a JavaScript
builtin external to this repository, so the three structured fields carry
its outcome: `none` when the field is absent or empty (the source then
parses the literal `'[]'`), `some (.ok v)` for a successful parse, and
`some (.error m)` for a `SyntaxError` with message `m`. -/
structure Body where
  name : Option String
  profession : Option String
  tagline : Option String
  summary : Option String
  about : Option String
  email : Option String
  linkedin : Option String
  phone : Option String
  skills : Option (Except String JsonVal)
  skillProficiencies : Option (Except String JsonVal)
  projects : Option (Except String JsonVal)
  template : Option String

/-- Truthiness of a possibly-absent string field. -/
def optTruthy : Option String → Bool
  | none => false
  | some s => !s.isEmpty

def optStr : Option String → String
  | none => ""
  | some s => s

/-- Model of `JSON.parse(skills || '[]').map(skill => sanitizeHtml(skill))`
(src/server.js line 345): a non-array parse result makes `.map` throw a
`TypeError`, surfaced as a generic failure. -/
def parseSkills : Option (Except String JsonVal) → Except String (List String)
  | none => .ok []
  | some (.error m) => .error m
  | some (.ok (.arr xs)) => .ok (xs.map fun v => sanitizeVal (some v))
  | some (.ok _) => .error "map is not a function"

/-- Model of `JSON.parse(skillProficiencies || '[]')` (line 346): kept as the raw
parsed value. -/
def parseProfs : Option (Except String JsonVal) → Except String JsonVal
  | none => .ok (.arr [])
  | some (.error m) => .error m
  | some (.ok v) => .ok v

/-- A parsed project after the sanitizing map of src/server.js lines
347-353. -/
structure PProj where
  title : String
  description : String
  link : String
  category : String
deriving DecidableEq

def parseProject (v : JsonVal) : PProj where
  title := sanitizeVal (jget v "title")
  description := sanitizeVal (jget v "description")
  link :=
    match jget v "link" with
    | some l => if jsTruthy l then sanitizeHtml (jsDisplay l) else ""
    | none => ""
  category := sanitizeVal (jget v "category")

/-- Model of `JSON.parse(projects || '[]').map(project => ({...}))` (lines 347-353). -/
def parseProjectsF : Option (Except String JsonVal) → Except String (List PProj)
  | none => .ok []
  | some (.error m) => .error m
  | some (.ok (.arr xs)) => .ok (xs.map parseProject)
  | some (.ok _) => .error "map is not a function"

/-- Model of `parsedSkills.length !== parsedProficiencies.length` with JavaScript
strict inequality: `undefined` is unequal to any number. -/
def lengthMismatch (sk : List String) (profs : JsonVal) : Bool :=
  match jsLength profs with
  | some m => sk.length != m
  | none => true

/-- The interpolated progress-bar width
`${parsedProficiencies[index] || 0}` (src/server.js line 367). -/
def widthOf (profs : JsonVal) (i : Nat) : String :=
  jsDisplay (jsOrVal (jsIndex profs i) (.num 0))

/-- One block of the skills fragment (src/server.js lines 363-369). -/
def skillBlock (profs : JsonVal) (i : Nat) (skill : String) : String :=
  "\n        <div class=\"skill-item\" data-aos=\"fade-up\" data-aos-delay=\"" ++
  natChars (100 + i * 100) ++ "\">\n          " ++
  jsOrStr skill ("Skill " ++ natChars (i + 1)) ++
  "\n          <div class=\"progress-bar\">\n            <div class=\"progress\" style=\"width: " ++
  widthOf profs i ++
  "%\"></div>\n          </div>\n        </div>"

/-- Embedding of `skillsHtml` (src/server.js lines 361-371). -/
def skillsHtml (parsedSkills : List String) (profs : JsonVal) : String :=
  joinStr (mapWithIndex (skillBlock profs) 0 parsedSkills)

/-- The filter of src/server.js line 375. -/
def includedProjects (ps : List PProj) : List PProj :=
  ps.filter fun p => !p.title.isEmpty && !p.description.isEmpty

/-- One block of the projects fragment (src/server.js lines 377-385). -/
def projBlock (i : Nat) (p : PProj) : String :=
  "\n        <article class=\"project\" data-tilt data-tilt-max=\"8\" data-aos=\"fade-up\" data-aos-delay=\"" ++
  natChars (100 + i * 100) ++ "\">\n          <div>\n            <h3>" ++
  jsOrStr p.title ("Project " ++ natChars (i + 1)) ++
  "</h3>\n            <p>" ++
  jsOrStr p.description "No description provided" ++
  "</p>\n            " ++
  (if p.link.isEmpty then ""
   else "<a href=\"" ++ p.link ++ "\" target=\"_blank\">View Project</a>") ++
  "\n            <span class=\"project-badge\">" ++
  jsOrStr p.category "General" ++
  "</span>\n          </div>\n        </article>"

/-- Embedding of `projectsHtml` (src/server.js lines 374-387). -/
def projectsHtml (ps : List PProj) : String :=
  joinStr (mapWithIndex projBlock 0 (includedProjects ps))

/-- Embedding of `sanitizedData` (src/server.js lines 390-400). -/
structure SanData where
  name : String
  profession : String
  tagline : String
  summary : String
  about : String
  email : String
  linkedin : String
  phone : String
  keywords : String

def sanitizedDataOf (b : Body) (parsedSkills : List String) : SanData where
  name := sanitizeOpt b.name
  profession := sanitizeOpt b.profession
  tagline := sanitizeOpt b.tagline
  summary := sanitizeOpt b.summary
  about := sanitizeOpt b.about
  email := sanitizeOpt b.email
  linkedin :=
    match b.linkedin with
    | some s => if !s.isEmpty then sanitizeHtml s else "https://linkedin.com"
    | none => "https://linkedin.com"
  phone := sanitizeOpt b.phone
  keywords := interStrs ", " parsedSkills

/-- The eleven substitutions of src/server.js lines 403-414, in source
order, with their fallback defaults. -/
def renderSteps (d : SanData) (skillsH projectsH : String) :
    List (List Char × List Char) :=
  [ (phName.data, (jsOrStr d.name "Your Name").data),
    (phProfession.data, (jsOrStr d.profession "Your Profession").data),
    (phTagline.data, (jsOrStr d.tagline "Your Tagline or Mission Statement").data),
    (phSummary.data,
      (jsOrStr d.summary
        "Describe your professional background, expertise, and key achievements.").data),
    (phAbout.data,
      (jsOrStr d.about
        "Share your personal story, passions, and what drives you in your career.").data),
    (phEmail.data, (jsOrStr d.email "your.email@example.com").data),
    (phLinkedin.data, (jsOrStr d.linkedin "https://linkedin.com").data),
    (phPhone.data, (jsOrStr d.phone "Your Phone Number").data),
    (phKeywords.data, (jsOrStr d.keywords "your-keywords").data),
    (phSkills.data, skillsH.data),
    (phProjects.data, projectsH.data) ]

/-- Embedding of `generatedHtml` (src/server.js lines 403-414): the template string with
every placeholder globally replaced, in source order. -/
def generatedHtml (tmpl : String) (d : SanData) (skillsH projectsH : String) : String :=
  ⟨chainReplace (renderSteps d skillsH projectsH) tmpl.data⟩

/-- JavaScript `toLowerCase` (ASCII range, which covers this program's
repository names). -/
def jsLower (s : String) : String := ⟨s.data.map Char.toLower⟩

/-- Model of `.replace(/\s/g, '-')`. -/
def wsDash (s : String) : String := ⟨s.data.map fun c => if isJsWs c then '-' else c⟩

/-- The generated repository name (src/server.js line 420). -/
def repoNameOf (sanName : String) (now : Nat) : String :=
  "eportfolio-" ++ wsDash (jsLower sanName) ++ "-" ++ natChars now

/-- Remote calls issued through Octokit. -/
inductive RemoteCall where
  | createRepo (name : String)
  | createPages (repo : String)
  | commitFile (repo : String) (path : String)
deriving DecidableEq

/-- Local filesystem operations performed for a request. -/
inductive FsOp where
  | uploadWrite (p : String)
  | mkdirp (p : String)
  | writeF (p : String)
  | copyF (src dst : String)
  | rmRec (p : String)
  | unlink (p : String)
deriving DecidableEq

/-- Outcomes of the external publishing service's calls. -/
structure RemoteEnv where
  createOk : Bool
  pagesOk : Bool
  commitOk : String → Bool

inductive RespBody where
  | urlOf (u : String)
  | errOf (m : String)
deriving DecidableEq

/-- The handler's observable outcome: HTTP status, JSON payload, the remote
calls issued and the filesystem operations performed, in order. -/
structure HResult where
  status : Nat
  body : RespBody
  remote : List RemoteCall
  fsOps : List FsOp

/-- The sequential commit loop (src/server.js lines 460-474): one
create-or-update call per artifact, aborting at the first failure. -/
def commitLoop (env : RemoteEnv) (repo : String) :
    List (String × String) → List RemoteCall × Option String
  | [] => ([], none)
  | (p, _) :: rest =>
    if env.commitOk p then
      let next := commitLoop env repo rest
      (RemoteCall.commitFile repo p :: next.1, next.2)
    else ([RemoteCall.commitFile repo p], some p)

/-- The publication tail of the handler (src/server.js lines 360-482),
reached once validation and parsing succeed: fragment generation,
rendering, repository provisioning, hosting enablement, local staging,
sequential commits, cleanup; any thrown error reaches the catch handler of
lines 483-486 and produces a 500 response with no further filesystem
activity. -/
def publishStage (githubUser : String) (env : RemoteEnv) (now : Nat) (b : Body)
    (cvFile imageFile : Option Stored) (fs0 : List FsOp) (tmpl : String)
    (parsedSkills : List String) (parsedProficiencies : JsonVal)
    (parsedProjects : List PProj) : HResult :=
  if lengthMismatch parsedSkills parsedProficiencies then
    ⟨400, .errOf "Number of skills and proficiencies must match", [], fs0⟩
  else
    let skillsH := skillsHtml parsedSkills parsedProficiencies
    let projectsH := projectsHtml parsedProjects
    let d := sanitizedDataOf b parsedSkills
    let html := generatedHtml tmpl d skillsH projectsH
    let repoName := repoNameOf d.name now
    if !env.createOk then
      ⟨500, .errOf "Failed to create repository", [.createRepo repoName], fs0⟩
    else if !env.pagesOk then
      ⟨500, .errOf "Failed to enable GitHub Pages",
       [.createRepo repoName, .createPages repoName], fs0⟩
    else
      let calls := [RemoteCall.createRepo repoName, RemoteCall.createPages repoName]
      let repoPath := "temp/" ++ repoName
      let fs1 := fs0 ++ [FsOp.mkdirp repoPath, FsOp.writeF (repoPath ++ "/index.html")]
      let fs2 := fs1 ++
        (match cvFile with
         | some f => [FsOp.copyF f.path (repoPath ++ "/resume.pdf")]
         | none => []) ++
        (match imageFile with
         | some f => [FsOp.copyF f.path (repoPath ++ "/headshot.jpg")]
         | none => [])
      let files :=
        [("index.html", b64enc html)] ++
        (match cvFile with
         | some f => [("resume.pdf", b64enc f.content)]
         | none => []) ++
        (match imageFile with
         | some f => [("headshot.jpg", b64enc f.content)]
         | none => [])
      match commitLoop env repoName files with
      | (cs, some p) =>
        ⟨500, .errOf ("Failed to commit " ++ p), calls ++ cs, fs2⟩
      | (cs, none) =>
        let fs3 := fs2 ++ [FsOp.rmRec repoPath] ++
          (match cvFile with
           | some f => [FsOp.unlink f.path]
           | none => []) ++
          (match imageFile with
           | some f => [FsOp.unlink f.path]
           | none => [])
        ⟨200, .urlOf ("https://" ++ githubUser ++ ".github.io/" ++ repoName),
         calls ++ cs, fs3⟩

/-- The `/api/generate` handler body (src/server.js lines 309-487), after
multer: validation and structured-field parsing, then the publication
stage. -/
def apiGenerate (githubUser : String) (env : RemoteEnv) (now : Nat) (b : Body)
    (cvFile imageFile : Option Stored) (fs0 : List FsOp) : HResult :=
  if !(optTruthy b.name && optTruthy b.profession && optTruthy b.email) then
    ⟨400, .errOf "Name, profession, and email are required", [], fs0⟩
  else if !emailRegexTest (optStr b.email) then
    ⟨400, .errOf "Invalid email format", [], fs0⟩
  else
    match tmplLookup b.template with
    | none => ⟨400, .errOf "Invalid template selected", [], fs0⟩
    | some tmpl =>
      match parseSkills b.skills with
      | .error m => ⟨500, .errOf m, [], fs0⟩
      | .ok parsedSkills =>
        match parseProfs b.skillProficiencies with
        | .error m => ⟨500, .errOf m, [], fs0⟩
        | .ok parsedProficiencies =>
          match parseProjectsF b.projects with
          | .error m => ⟨500, .errOf m, [], fs0⟩
          | .ok parsedProjects =>
            publishStage githubUser env now b cvFile imageFile fs0 tmpl
              parsedSkills parsedProficiencies parsedProjects

/-- The always-successful remote environment. -/
def allOk : RemoteEnv := ⟨true, true, fun _ => true⟩

/-- The whole endpoint: the multer middleware stage followed by the handler.
Modelled from the spec (§4.2): the mapping of an upload-constraint violation
to the HTTP response is middleware code outside src/, and per the spec it
"fails the whole request with a client error before any remote side effects
occur". -/
def endpointGenerate (githubUser : String) (env : RemoteEnv) (now : Nat)
    (b : Body) (cv image : Option UpFile) : HResult :=
  match multerCheck cv image with
  | some m => ⟨400, .errOf m, [], []⟩
  | none =>
    let cvS := cv.map (storedOf now)
    let imgS := image.map (storedOf now)
    let fs0 :=
      (match cvS with | some f => [FsOp.uploadWrite f.path] | none => []) ++
      (match imgS with | some f => [FsOp.uploadWrite f.path] | none => [])
    apiGenerate githubUser env now b cvS imgS fs0

/-- The commit paths of a call trace, in order. -/
def commitPaths (calls : List RemoteCall) : List String :=
  calls.filterMap fun c =>
    match c with
    | .commitFile _ p => some p
    | _ => none

/-- The list of the eleven placeholder tokens. -/
def placeholders : List String :=
  [phName, phProfession, phTagline, phSummary, phAbout, phEmail, phLinkedin,
   phPhone, phKeywords, phSkills, phProjects]

/-- The fixed relative asset reference the skeleton uses for the profile
image (src/server.js line 141). -/
def hsRef : String := "./headshot.jpg"

/-- The closing tag of the link anchor element a project block may contain. -/
def aTag : String := "</a>"

/-- The same tokens as character lists. -/
def toksL : List (List Char) :=
  [phName.data, phProfession.data, phTagline.data, phSummary.data, phAbout.data,
   phEmail.data, phLinkedin.data, phPhone.data, phKeywords.data, phSkills.data,
   phProjects.data]

/-- Validity of a decomposition for the whole substitution chain: at each
step every current part is the step's token or refutes it everywhere. -/
def ChainOK : List (List Char × List Char) → List (List Char) → Prop
  | [], _ => True
  | (p, r) :: rest, ps =>
    p ≠ [] ∧ (∀ q ∈ ps, q = p ∨ allRefuted p q = true) ∧
      ChainOK rest (fillHole p r ps)


/-- The end-to-end scenario request of spec §8: Ada Lovelace, template
`dark`, one skill with proficiency 80, one titled and described project,
no uploads. -/
def adaBody : Body where
  name := some "Ada Lovelace"
  profession := some "Engineer"
  tagline := none
  summary := none
  about := none
  email := some "ada@example.com"
  linkedin := none
  phone := none
  skills := some (.ok (.arr [.str "C++"]))
  skillProficiencies := some (.ok (.arr [.num 80]))
  projects := some (.ok (.arr [.obj [("title", .str "Engine"),
    ("description", .str "desc")]]))
  template := some "dark"

/-! ### Lemmas about the substitution machinery -/

theorem begins_append_weaken {p s : List Char} (t : List Char)
    (h : begins p s = true) : begins p (s ++ t) = true := by
  induction p generalizing s with
  | nil => simp [begins]
  | cons a p ih =>
    cases s with
    | nil => simp [begins] at h
    | cons b s =>
      simp only [begins, Bool.and_eq_true, beq_iff_eq] at h ⊢
      exact ⟨h.1, ih h.2⟩

theorem begins_self_append (p t : List Char) : begins p (p ++ t) = true := by
  induction p with
  | nil => simp [begins]
  | cons a p ih => simp [begins, ih]

theorem begins_drop {p a t : List Char} (h : begins p (a ++ t) = true) :
    begins (p.drop a.length) t = true := by
  induction a generalizing p with
  | nil => simpa using h
  | cons c a ih =>
    cases p with
    | nil => simp [begins]
    | cons x p =>
      simp only [List.cons_append, begins, Bool.and_eq_true] at h
      simpa using ih h.2

theorem refutedIn_begins {p q : List Char} (b : List Char)
    (h : refutedIn p q = true) : begins p (q ++ b) = false := by
  induction p generalizing q with
  | nil => simp [refutedIn] at h
  | cons a p ih =>
    cases q with
    | nil => simp [refutedIn] at h
    | cons c q =>
      simp only [refutedIn, Bool.or_eq_true, bne_iff_ne, ne_eq] at h
      simp only [List.cons_append, begins, Bool.and_eq_false_iff, beq_eq_false_iff_ne,
        ne_eq]
      rcases h with h | h
      · exact Or.inl h
      · exact Or.inr (ih h)

theorem refutedIn_self_cons (a : Char) (p : List Char) :
    refutedIn (a :: p) (a :: p) = false := by
  induction p generalizing a with
  | nil => simp [refutedIn]
  | cons b q ih =>
    show ((a != a) || refutedIn (b :: q) (b :: q)) = false
    rw [ih b]
    simp

theorem refutedIn_self {p : List Char} (hp : p ≠ []) : refutedIn p p = false := by
  cases p with
  | nil => exact absurd rfl hp
  | cons a p => exact refutedIn_self_cons a p

theorem allRefuted_ne {p q : List Char} (hp : p ≠ []) (h : allRefuted p q = true) :
    q ≠ p := by
  intro he
  subst he
  cases q with
  | nil => exact hp rfl
  | cons c s =>
    simp only [allRefuted, Bool.and_eq_true] at h
    rw [refutedIn_self hp] at h
    exact Bool.false_ne_true h.1

theorem spliceAll_nil (p r : List Char) : spliceAll p r [] = [] := by
  simp [spliceAll]

theorem spliceAll_cons_pos {p : List Char} (r : List Char) {c : Char} {s : List Char}
    (h : begins p (c :: s) = true) (hp : p ≠ []) :
    spliceAll p r (c :: s) = r ++ spliceAll p r (s.drop (p.length - 1)) := by
  have hne : p.isEmpty = false := by
    cases p with
    | nil => exact absurd rfl hp
    | cons _ _ => rfl
  rw [spliceAll]
  simp [h, hne]

theorem spliceAll_cons_neg {p : List Char} (r : List Char) {c : Char} {s : List Char}
    (h : begins p (c :: s) = false) :
    spliceAll p r (c :: s) = c :: spliceAll p r s := by
  rw [spliceAll]
  simp [h]

theorem spliceAll_skip {p q : List Char} (r b : List Char)
    (h : allRefuted p q = true) : spliceAll p r (q ++ b) = q ++ spliceAll p r b := by
  induction q with
  | nil => simp
  | cons c s ih =>
    simp only [allRefuted, Bool.and_eq_true] at h
    have hb : begins p (c :: (s ++ b)) = false := refutedIn_begins b h.1
    rw [List.cons_append, spliceAll_cons_neg r hb, ih h.2]
    simp

theorem spliceAll_hole {p : List Char} (r b : List Char) (hp : p ≠ []) :
    spliceAll p r (p ++ b) = r ++ spliceAll p r b := by
  cases p with
  | nil => exact absurd rfl hp
  | cons a p2 =>
    have hb : begins (a :: p2) (a :: (p2 ++ b)) = true := begins_self_append (a :: p2) b
    rw [List.cons_append, spliceAll_cons_pos r hb hp]
    simp [List.drop_left]

theorem spliceAll_parts {p : List Char} (r : List Char) {ps : List (List Char)}
    (hp : p ≠ []) (hq : ∀ q ∈ ps, q = p ∨ allRefuted p q = true) :
    spliceAll p r (joinl ps) = joinl (fillHole p r ps) := by
  induction ps with
  | nil => simp [joinl, fillHole, spliceAll_nil]
  | cons q ps ih =>
    have hqh := hq q (by simp)
    have hrest : ∀ q ∈ ps, q = p ∨ allRefuted p q = true := fun x hx => hq x (by simp [hx])
    by_cases he : q = p
    · subst he
      simp only [joinl, fillHole, List.map_cons, if_pos rfl]
      rw [spliceAll_hole _ _ hp, ih hrest]
      rfl
    · have hr : allRefuted p q = true := by
        rcases hqh with h | h
        · exact absurd h he
        · exact h
      simp only [joinl, fillHole, List.map_cons, if_neg he]
      rw [spliceAll_skip _ _ hr, ih hrest]
      rfl

theorem chain_parts {steps : List (List Char × List Char)} {ps : List (List Char)}
    (h : ChainOK steps ps) :
    chainSplice steps (joinl ps) = joinl (chainParts steps ps) := by
  induction steps generalizing ps with
  | nil => simp [chainSplice, chainParts]
  | cons s rest ih =>
    obtain ⟨p, r⟩ := s
    obtain ⟨hp, hq, hrest⟩ := h
    simp only [chainSplice, chainParts]
    rw [spliceAll_parts r hp hq]
    exact ih hrest

theorem expandDollar_id {r : List Char} (matched pre post : List Char)
    (h : noDollar r = true) : expandDollar matched pre post r = r := by
  induction r with
  | nil => rfl
  | cons c rest ih =>
    have h' : ((c != '$') && noDollar rest) = true := h
    simp only [Bool.and_eq_true, bne_iff_ne, ne_eq] at h'
    have hu : expandDollar matched pre post (c :: rest) =
        c :: expandDollar matched pre post rest := by
      rw [expandDollar.eq_def]
      simp [h'.1]
    rw [hu, ih h'.2]

theorem replaceAllAux_nil (p r pre : List Char) : replaceAllAux p r pre [] = [] := by
  simp [replaceAllAux]

theorem replaceAllAux_cons_pos {p : List Char} (r pre : List Char) {c : Char}
    {s : List Char} (h : begins p (c :: s) = true) (hp : p ≠ []) :
    replaceAllAux p r pre (c :: s) =
      expandDollar p pre.reverse (s.drop (p.length - 1)) r ++
        replaceAllAux p r (p.reverse ++ pre) (s.drop (p.length - 1)) := by
  have hne : p.isEmpty = false := by
    cases p with
    | nil => exact absurd rfl hp
    | cons _ _ => rfl
  rw [replaceAllAux]
  simp [h, hne]

theorem replaceAllAux_cons_neg {p : List Char} (r pre : List Char) {c : Char}
    {s : List Char} (h : begins p (c :: s) = false) :
    replaceAllAux p r pre (c :: s) = c :: replaceAllAux p r (c :: pre) s := by
  rw [replaceAllAux]
  simp [h]

theorem replaceAllAux_skip {p q : List Char} (r b : List Char)
    (h : allRefuted p q = true) : ∀ pre,
    replaceAllAux p r pre (q ++ b) = q ++ replaceAllAux p r (q.reverse ++ pre) b := by
  induction q with
  | nil => simp
  | cons c s ih =>
    intro pre
    simp only [allRefuted, Bool.and_eq_true] at h
    have hb : begins p (c :: (s ++ b)) = false := refutedIn_begins b h.1
    rw [List.cons_append, replaceAllAux_cons_neg r pre hb, ih h.2 (c :: pre)]
    simp [List.append_assoc]

theorem replaceAllAux_splice {p r : List Char} (h : noDollar r = true) :
    ∀ m s pre, s.length ≤ m → replaceAllAux p r pre s = spliceAll p r s := by
  intro m
  induction m with
  | zero =>
    intro s pre hs
    have : s = [] := List.length_eq_zero.mp (Nat.le_zero.mp hs)
    subst this
    rw [replaceAllAux_nil, spliceAll_nil]
  | succ m ih =>
    intro s pre hs
    cases s with
    | nil => rw [replaceAllAux_nil, spliceAll_nil]
    | cons c s' =>
      by_cases hb : begins p (c :: s') = true
      · by_cases hp : p = []
        · subst hp
          simp [replaceAllAux, spliceAll]
          exact ih s' (c :: pre) (Nat.le_of_succ_le_succ hs)
        · rw [replaceAllAux_cons_pos r pre hb hp, spliceAll_cons_pos r hb hp,
            expandDollar_id p pre.reverse (s'.drop (p.length - 1)) h]
          have hlen : (s'.drop (p.length - 1)).length ≤ m := by
            have := List.length_drop (p.length - 1) s'
            have h2 : s'.length ≤ m := Nat.le_of_succ_le_succ hs
            omega
          rw [ih (s'.drop (p.length - 1)) (p.reverse ++ pre) hlen]
      · have hb' : begins p (c :: s') = false := by
          cases hb2 : begins p (c :: s') with
          | false => rfl
          | true => exact absurd hb2 hb
        rw [replaceAllAux_cons_neg r pre hb', spliceAll_cons_neg r hb',
          ih s' (c :: pre) (Nat.le_of_succ_le_succ hs)]

theorem replaceAll_splice {p r : List Char} (s : List Char) (h : noDollar r = true) :
    replaceAll p r s = spliceAll p r s := by
  exact replaceAllAux_splice h s.length s [] (le_refl _)

theorem chainReplace_splice {steps : List (List Char × List Char)}
    (h : ∀ s ∈ steps, noDollar s.2 = true) :
    ∀ x, chainReplace steps x = chainSplice steps x := by
  induction steps with
  | nil => intro x; rfl
  | cons st rest ih =>
    intro x
    obtain ⟨p, r⟩ := st
    simp only [chainReplace, chainSplice]
    rw [replaceAll_splice x (h (p, r) (by simp))]
    exact ih (fun s hs => h s (by simp [hs])) _

theorem chainParts_mem {steps : List (List Char × List Char)}
    {ps : List (List Char)} {q : List Char} (h : q ∈ chainParts steps ps) :
    (∃ s ∈ steps, q = s.2) ∨ (q ∈ ps ∧ ∀ s ∈ steps, q ≠ s.1) := by
  induction steps generalizing ps with
  | nil => exact Or.inr ⟨h, by simp⟩
  | cons s rest ih =>
    obtain ⟨p, r⟩ := s
    rcases @ih (fillHole p r ps) h with hrep | ⟨hmem, hne⟩
    · obtain ⟨s', hs', he⟩ := hrep
      exact Or.inl ⟨s', by simp [hs'], he⟩
    · simp only [fillHole, List.mem_map] at hmem
      obtain ⟨q0, hq0, he⟩ := hmem
      by_cases h0 : q0 = p
      · rw [if_pos h0] at he
        exact Or.inl ⟨(p, r), by simp, he.symm⟩
      · rw [if_neg h0] at he
        subst he
        refine Or.inr ⟨hq0, ?_⟩
        intro s' hs'
        rcases List.mem_cons.mp hs' with rfl | hs'
        · exact h0
        · exact hne s' hs'

theorem hasSub_append_of_right {n b : List Char} (a : List Char)
    (h : hasSub n b = true) : hasSub n (a ++ b) = true := by
  induction a with
  | nil => simpa using h
  | cons c a ih => simp only [List.cons_append, hasSub, Bool.or_eq_true]; exact Or.inr ih

theorem hasSub_append_of_left {n a : List Char} (b : List Char)
    (h : hasSub n a = true) : hasSub n (a ++ b) = true := by
  induction a with
  | nil =>
    simp only [hasSub] at h
    simp only [List.nil_append, List.isEmpty_iff] at h
    subst h
    cases b with
    | nil => simp [hasSub]
    | cons c b => simp [hasSub, begins]
  | cons c a ih =>
    simp only [hasSub, Bool.or_eq_true] at h
    simp only [List.cons_append, hasSub, Bool.or_eq_true]
    rcases h with h | h
    · exact Or.inl (by simpa using begins_append_weaken b h)
    · exact Or.inr (ih h)

theorem hasSub_skip {n q : List Char} (b : List Char)
    (h : allRefuted n q = true) : hasSub n (q ++ b) = hasSub n b := by
  induction q with
  | nil => simp
  | cons c s ih =>
    simp only [allRefuted, Bool.and_eq_true] at h
    have hb : begins n (c :: (s ++ b)) = false := refutedIn_begins b h.1
    rw [List.cons_append, hasSub, hb, ih h.2]
    simp

theorem hasSub_joinl_none {n : List Char} {ps : List (List Char)} (hn : n ≠ [])
    (h : ∀ q ∈ ps, allRefuted n q = true) : hasSub n (joinl ps) = false := by
  induction ps with
  | nil => simpa [hasSub, List.isEmpty_iff]
  | cons q ps ih =>
    simp only [joinl]
    rw [hasSub_skip _ (h q (by simp))]
    exact ih fun x hx => h x (by simp [hx])

theorem hasSub_joinl_of_mem {n q : List Char} {ps : List (List Char)}
    (hq : q ∈ ps) (h : hasSub n q = true) : hasSub n (joinl ps) = true := by
  induction ps with
  | nil => simp at hq
  | cons x ps ih =>
    simp only [joinl]
    rcases List.mem_cons.mp hq with rfl | hq
    · exact hasSub_append_of_left _ h
    · exact hasSub_append_of_right _ (ih hq)

theorem begins_exists {n s : List Char} (h : begins n s = true) :
    ∃ t, s = n ++ t := by
  induction n generalizing s with
  | nil => exact ⟨s, rfl⟩
  | cons a n ih =>
    cases s with
    | nil => simp [begins] at h
    | cons c s =>
      simp only [begins, Bool.and_eq_true, beq_iff_eq] at h
      obtain ⟨t, ht⟩ := ih h.2
      exact ⟨t, by simp [h.1, ht]⟩

theorem hasSub_parts {n s : List Char} (h : hasSub n s = true) :
    ∃ a b, s = a ++ n ++ b := by
  induction s with
  | nil =>
    simp only [hasSub, List.isEmpty_iff] at h
    refine ⟨[], [], ?_⟩
    simp [h]
  | cons c s ih =>
    simp only [hasSub, Bool.or_eq_true] at h
    rcases h with h | h
    · obtain ⟨t, ht⟩ := begins_exists h
      exact ⟨[], t, by simp [ht]⟩
    · obtain ⟨a, b, he⟩ := ih h
      exact ⟨c :: a, b, by simp [he]⟩

theorem allRefuted_of_noBrace {p q t : List Char} (hq : noBrace q = true)
    (hp : p = '{' :: t) : allRefuted p q = true := by
  induction q with
  | nil => simp [allRefuted]
  | cons c s ih =>
    have hq' : ((c != '{' && c != '}') && noBrace s) = true := hq
    simp only [Bool.and_eq_true, bne_iff_ne, ne_eq] at hq'
    simp only [allRefuted, Bool.and_eq_true]
    constructor
    · subst hp
      simp only [refutedIn, Bool.or_eq_true, bne_iff_ne, ne_eq]
      exact Or.inl fun he => hq'.1.1 he.symm
    · exact ih hq'.2

theorem allRefuted_of_chunkOK {toks : List (List Char)} {p q t : List Char}
    (h : chunkOK toks q = true) (hmem : p ∈ toks) (hp : p = '{' :: t) :
    allRefuted p q = true := by
  induction q with
  | nil => simp [allRefuted]
  | cons c s ih =>
    simp only [chunkOK, Bool.and_eq_true] at h
    simp only [allRefuted, Bool.and_eq_true]
    refine ⟨?_, ih h.2⟩
    by_cases hc : c = '{'
    · have := h.1
      rw [if_pos (by simp [hc])] at this
      exact (List.all_eq_true.mp this) p hmem
    · subst hp
      simp only [refutedIn, Bool.or_eq_true, bne_iff_ne, ne_eq]
      exact Or.inl fun he => hc he.symm

theorem tailsRef_drop {p n : List Char} (h : tailsRef p n = true) :
    ∀ k, 1 ≤ k → k < p.length → refutedIn (p.drop k) n = true := by
  induction p with
  | nil => intro k h1 h2; simp at h2
  | cons a p ih =>
    intro k h1 h2
    simp only [tailsRef, Bool.and_eq_true, Bool.or_eq_true, List.isEmpty_iff] at h
    match k, h1 with
    | 1, _ =>
      simp only [List.drop_succ_cons, List.drop_zero]
      rcases h.1 with he | hr
      · subst he; simp at h2
      · exact hr
    | (k + 2), _ =>
      simp only [List.drop_succ_cons]
      exact ih h.2 (k + 1) (by omega) (by simpa using Nat.lt_of_succ_lt_succ h2)

theorem replaceAllAux_preserve {p n : List Char} (r : List Char) (hp : p ≠ [])
    (hall : allRefuted p n = true) (htails : tailsRef p n = true) :
    ∀ m a, a.length ≤ m → ∀ b pre,
      ∃ a2 b2, replaceAllAux p r pre (a ++ n ++ b) = a2 ++ n ++ b2 := by
  intro m
  induction m with
  | zero =>
    intro a ha b pre
    have : a = [] := List.length_eq_zero.mp (Nat.le_zero.mp ha)
    subst this
    refine ⟨[], replaceAllAux p r (n.reverse ++ pre) b, ?_⟩
    simpa using replaceAllAux_skip r b hall pre
  | succ m ih =>
    intro a ha b pre
    cases a with
    | nil =>
      refine ⟨[], replaceAllAux p r (n.reverse ++ pre) b, ?_⟩
      simpa using replaceAllAux_skip r b hall pre
    | cons c a' =>
      have ha2 : a'.length ≤ m := by
        simp only [List.length_cons] at ha
        omega
      by_cases hb : begins p (c :: (a' ++ n ++ b)) = true
      · -- the match must lie entirely within `a`
        have hlen : p.length ≤ a'.length + 1 := by
          by_contra hlt
          push_neg at hlt
          have h1 : begins (p.drop (a'.length + 1)) (n ++ b) = true := by
            have h0 : begins p ((c :: a') ++ (n ++ b)) = true := by
              have : (c :: a') ++ (n ++ b) = c :: (a' ++ n ++ b) := by simp
              rw [this]
              exact hb
            simpa using begins_drop h0
          have h2 : refutedIn (p.drop (a'.length + 1)) n = true :=
            tailsRef_drop htails _ (by omega) (by omega)
          rw [refutedIn_begins b h2] at h1
          exact Bool.false_ne_true h1
        have hstep : replaceAllAux p r pre (c :: (a' ++ n ++ b)) =
            expandDollar p pre.reverse ((a' ++ n ++ b).drop (p.length - 1)) r ++
              replaceAllAux p r (p.reverse ++ pre) ((a' ++ n ++ b).drop (p.length - 1)) :=
          replaceAllAux_cons_pos r pre hb hp
        have hdrop : (a' ++ n ++ b).drop (p.length - 1) =
            (a'.drop (p.length - 1)) ++ n ++ b := by
          have hle : p.length - 1 ≤ a'.length := by omega
          rw [List.append_assoc, List.drop_append_of_le_length hle, ← List.append_assoc]
        rw [hdrop] at hstep
        have hlen2 : (a'.drop (p.length - 1)).length ≤ m := by
          simp only [List.length_drop]
          omega
        obtain ⟨a2, b2, he⟩ := ih (a'.drop (p.length - 1)) hlen2 b (p.reverse ++ pre)
        refine ⟨expandDollar p pre.reverse ((a'.drop (p.length - 1)) ++ n ++ b) r ++ a2,
          b2, ?_⟩
        have hgoal : replaceAllAux p r pre ((c :: a') ++ n ++ b) =
            replaceAllAux p r pre (c :: (a' ++ n ++ b)) := rfl
        rw [hgoal, hstep, he]
        simp
      · simp only [Bool.not_eq_true] at hb
        have hstep : replaceAllAux p r pre (c :: (a' ++ n ++ b)) =
            c :: replaceAllAux p r (c :: pre) (a' ++ n ++ b) :=
          replaceAllAux_cons_neg r pre hb
        obtain ⟨a2, b2, he⟩ := ih a' ha2 b (c :: pre)
        refine ⟨c :: a2, b2, ?_⟩
        have hgoal : replaceAllAux p r pre ((c :: a') ++ n ++ b) =
            replaceAllAux p r pre (c :: (a' ++ n ++ b)) := rfl
        rw [hgoal, hstep, he]
        simp

theorem chainReplace_preserve {steps : List (List Char × List Char)} {n : List Char}
    (hs : ∀ s ∈ steps, s.1 ≠ [] ∧ allRefuted s.1 n = true ∧ tailsRef s.1 n = true) :
    ∀ a b, ∃ a2 b2, chainReplace steps (a ++ n ++ b) = a2 ++ n ++ b2 := by
  induction steps with
  | nil => exact fun a b => ⟨a, b, rfl⟩
  | cons s rest ih =>
    intro a b
    obtain ⟨p, r⟩ := s
    obtain ⟨hp, hall, htails⟩ := hs (p, r) (by simp)
    obtain ⟨a2, b2, he⟩ :=
      replaceAllAux_preserve r hp hall htails a.length a (le_refl _) b []
    have he' : replaceAll p r (a ++ n ++ b) = a2 ++ n ++ b2 := he
    obtain ⟨a3, b3, he3⟩ := ih (fun x hx => hs x (by simp [hx])) a2 b2
    exact ⟨a3, b3, by simp only [chainReplace]; rw [he', he3]⟩

theorem pairwise_universal {α : Type} {R : α → α → Prop} {l : List α}
    (h : ∀ x ∈ l, ∀ y ∈ l, R x y) : l.Pairwise R := by
  induction l with
  | nil => exact List.Pairwise.nil
  | cons x l ih =>
    refine List.Pairwise.cons (fun y hy => h x (by simp) y (by simp [hy])) ?_
    exact ih fun a ha b hb => h a (by simp [ha]) b (by simp [hb])

theorem chainOK_of_good {steps : List (List Char × List Char)}
    {ps : List (List Char)}
    (h1 : ∀ s ∈ steps, s.1 ≠ [] ∧ ∃ t, s.1 = '{' :: t)
    (h2 : List.Pairwise (fun x y => allRefuted x.1 y.1 = true) steps)
    (h2b : List.Pairwise (fun x y => allRefuted y.1 x.2 = true) steps)
    (hps : ∀ q ∈ ps,
      (∃ s ∈ steps, q = s.1) ∨ (∀ s ∈ steps, allRefuted s.1 q = true)) :
    ChainOK steps ps := by
  induction steps generalizing ps with
  | nil => trivial
  | cons hd rest ih =>
    obtain ⟨p, r⟩ := hd
    have hh2 := List.pairwise_cons.mp h2
    have hh2b := List.pairwise_cons.mp h2b
    refine ⟨(h1 (p, r) (by simp)).1, ?_, ?_⟩
    · intro q hq
      rcases hps q hq with ⟨s, hs, he⟩ | hr
      · rcases List.mem_cons.mp hs with rfl | hs'
        · exact Or.inl he
        · exact Or.inr (he ▸ hh2.1 s hs')
      · exact Or.inr (hr (p, r) (by simp))
    · apply ih
      · exact fun s hs => h1 s (by simp [hs])
      · exact hh2.2
      · exact hh2b.2
      · intro q hq
        simp only [fillHole, List.mem_map] at hq
        obtain ⟨q0, hq0, he⟩ := hq
        by_cases h0 : q0 = p
        · rw [if_pos h0] at he
          subst he
          exact Or.inr fun s hs => hh2b.1 s hs
        · rw [if_neg h0] at he
          subst he
          rcases hps q0 hq0 with ⟨s, hs, he'⟩ | hr
          · rcases List.mem_cons.mp hs with rfl | hs'
            · exact absurd he' h0
            · exact Or.inl ⟨s, hs', he'⟩
          · exact Or.inr fun s hs => hr s (by simp [hs])

theorem toks_head : ∀ p ∈ toksL, p ≠ [] ∧ ∃ t, p = '{' :: t := by
  have hall : toksL.all (fun p => !p.isEmpty && (p.head? == some '{')) = true := by
    decide
  intro p hp
  have h := List.all_eq_true.mp hall p hp
  simp only [Bool.and_eq_true, Bool.not_eq_true', beq_iff_eq] at h
  cases p with
  | nil => simp at h
  | cons c t =>
    have hc : c = '{' := by simpa using h.2
    exact ⟨by simp, t, by rw [hc]⟩

theorem toks_pairwise : List.Pairwise (fun x y => allRefuted x y = true) toksL := by
  decide

theorem str_data_append (s t : String) : (s ++ t).data = s.data ++ t.data := rfl

set_option maxRecDepth 4000 in
theorem baseTemplate_data (c : Colors) :
    (baseTemplate c).data = joinl (templateParts c) := by
  simp only [baseTemplate, templateParts, joinl, str_data_append, List.append_assoc,
    List.append_nil]

theorem renderSteps_fst (d : SanData) (sk pj : String) :
    (renderSteps d sk pj).map Prod.fst = toksL := rfl

theorem noBrace_jsOrStr {a b : String} (ha : noBrace a.data = true)
    (hb : noBrace b.data = true) : noBrace (jsOrStr a b).data = true := by
  unfold jsOrStr
  split <;> assumption

theorem plainRep_jsOrStr {a b : String} (ha : plainRep a.data = true)
    (hb : plainRep b.data = true) : plainRep (jsOrStr a b).data = true := by
  unfold jsOrStr
  split <;> assumption

theorem good_of_partsGood {c : Colors}
    (h : ((templateParts c).all fun q => decide (q ∈ toksL) || chunkOK toksL q) = true) :
    ∀ q ∈ templateParts c, q ∈ toksL ∨ chunkOK toksL q = true := by
  intro q hq
  have h2 := List.all_eq_true.mp h q hq
  simp only [Bool.or_eq_true, decide_eq_true_eq] at h2
  exact h2

theorem steps_fst_mem {d : SanData} {sk pj : String} :
    ∀ s ∈ renderSteps d sk pj, s.1 ∈ toksL := by
  intro s hs
  rw [← renderSteps_fst d sk pj]
  exact List.mem_map_of_mem _ hs

theorem render_chain (c : Colors)
    (hgood : ∀ q ∈ templateParts c, q ∈ toksL ∨ chunkOK toksL q = true)
    (d : SanData) (sk pj : String)
    (h2b : List.Pairwise (fun x y => allRefuted y.1 x.2 = true)
      (renderSteps d sk pj)) :
    ChainOK (renderSteps d sk pj) (templateParts c) := by
  apply chainOK_of_good
  · exact fun s hs => toks_head s.1 (steps_fst_mem s hs)
  · have hp := toks_pairwise
    rw [← renderSteps_fst d sk pj] at hp
    exact List.pairwise_map.mp hp
  · exact h2b
  · intro q hq
    rcases hgood q hq with hmem | hchunk
    · rw [← renderSteps_fst d sk pj] at hmem
      obtain ⟨s, hs, he⟩ := List.mem_map.mp hmem
      exact Or.inl ⟨s, hs, he.symm⟩
    · refine Or.inr fun s hs => ?_
      obtain ⟨-, t, ht⟩ := toks_head s.1 (steps_fst_mem s hs)
      exact allRefuted_of_chunkOK hchunk (steps_fst_mem s hs) ht

theorem render_chain_eq (c : Colors)
    (hgood : ∀ q ∈ templateParts c, q ∈ toksL ∨ chunkOK toksL q = true)
    (d : SanData) (sk pj : String)
    (hnd : ∀ s ∈ renderSteps d sk pj, noDollar s.2 = true)
    (h2b : List.Pairwise (fun x y => allRefuted y.1 x.2 = true)
      (renderSteps d sk pj)) :
    (generatedHtml (baseTemplate c) d sk pj).data =
      joinl (chainParts (renderSteps d sk pj) (templateParts c)) := by
  have hgen : (generatedHtml (baseTemplate c) d sk pj).data =
      chainReplace (renderSteps d sk pj) (baseTemplate c).data := rfl
  rw [hgen, chainReplace_splice hnd, baseTemplate_data,
    chain_parts (render_chain c hgood d sk pj h2b)]

theorem render_good (c : Colors)
    (hgood : ∀ q ∈ templateParts c, q ∈ toksL ∨ chunkOK toksL q = true)
    (d : SanData) (sk pj : String)
    (hreps : ∀ s ∈ renderSteps d sk pj, plainRep s.2 = true)
    {ph : List Char} (hph : ph ∈ toksL) :
    hasSub ph (generatedHtml (baseTemplate c) d sk pj).data = false := by
  have hrb : ∀ s ∈ renderSteps d sk pj, noBrace s.2 = true := by
    intro s hs
    have hx : (noBrace s.2 && noDollar s.2) = true := hreps s hs
    simp only [Bool.and_eq_true] at hx
    exact hx.1
  have hrd : ∀ s ∈ renderSteps d sk pj, noDollar s.2 = true := by
    intro s hs
    have hx : (noBrace s.2 && noDollar s.2) = true := hreps s hs
    simp only [Bool.and_eq_true] at hx
    exact hx.2
  have h2b : List.Pairwise (fun x y => allRefuted y.1 x.2 = true)
      (renderSteps d sk pj) := by
    apply pairwise_universal
    intro x hx y hy
    obtain ⟨-, t, ht⟩ := toks_head y.1 (steps_fst_mem y hy)
    exact allRefuted_of_noBrace (hrb x hx) ht
  rw [render_chain_eq c hgood d sk pj hrd h2b]
  obtain ⟨hphne, tph, hpht⟩ := toks_head ph hph
  apply hasSub_joinl_none hphne
  intro q hq
  rcases chainParts_mem hq with ⟨s, hs, he⟩ | ⟨hmem, hne⟩
  · exact he ▸ allRefuted_of_noBrace (hrb s hs) hpht
  · rcases hgood q hmem with hmem2 | hchunk
    · exfalso
      rw [← renderSteps_fst d sk pj] at hmem2
      obtain ⟨s, hs, he⟩ := List.mem_map.mp hmem2
      exact hne s hs he.symm
    · exact allRefuted_of_chunkOK hchunk hph hpht

set_option maxRecDepth 200000 in
theorem partsGood_default :
    ((templateParts defaultColors).all fun q =>
      decide (q ∈ toksL) || chunkOK toksL q) = true := by rfl

set_option maxRecDepth 200000 in
theorem partsGood_dark :
    ((templateParts darkColors).all fun q =>
      decide (q ∈ toksL) || chunkOK toksL q) = true := by rfl

set_option maxRecDepth 200000 in
theorem partsGood_vibrant :
    ((templateParts vibrantColors).all fun q =>
      decide (q ∈ toksL) || chunkOK toksL q) = true := by rfl

theorem templates_cases {tname tmpl : String} (h : templates tname = some tmpl) :
    tmpl = baseTemplate defaultColors ∨ tmpl = baseTemplate darkColors ∨
      tmpl = baseTemplate vibrantColors := by
  unfold templates at h
  split_ifs at h <;> simp_all

theorem hasSub_refl {n : List Char} (hn : n ≠ []) : hasSub n n = true := by
  cases n with
  | nil => exact absurd rfl hn
  | cons c t =>
    have hb : begins (c :: t) (c :: t) = true := by
      have := begins_self_append (c :: t) []
      simpa using this
    simp [hasSub, hb]

theorem hasSub_sandwich {n : List Char} (a b : List Char) (hn : n ≠ []) :
    hasSub n (a ++ n ++ b) = true := by
  rw [List.append_assoc]
  exact hasSub_append_of_right a (hasSub_append_of_left b (hasSub_refl hn))

theorem toks_avoid_headshot :
    ∀ p ∈ toksL, p ≠ [] ∧ allRefuted p hsRef.data = true ∧
      tailsRef p hsRef.data = true := by
  have hall : toksL.all
      (fun p => allRefuted p hsRef.data && tailsRef p hsRef.data) = true := by decide
  intro p hp
  have h := List.all_eq_true.mp hall p hp
  simp only [Bool.and_eq_true] at h
  exact ⟨(toks_head p hp).1, h.1, h.2⟩

set_option maxRecDepth 20000 in
theorem headshot_chunk :
    hasSub hsRef.data
      ("</p>\n      <a href=\"#contact\" class=\"cta-button\">Connect with Me</a>\n    </div>\n  </section>\n  <div class=\"container\">\n    <section class=\"section about\" id=\"about\" data-aos=\"slide-right\">\n      <img class=\"headshot\" src=\"./headshot.jpg\" alt=\"Profile Image\" loading=\"lazy\">\n      <h2>Professional Summary</h2>\n      <p>" : String).data = true := by decide

theorem headshot_chunk_mem (c : Colors) :
    ("</p>\n      <a href=\"#contact\" class=\"cta-button\">Connect with Me</a>\n    </div>\n  </section>\n  <div class=\"container\">\n    <section class=\"section about\" id=\"about\" data-aos=\"slide-right\">\n      <img class=\"headshot\" src=\"./headshot.jpg\" alt=\"Profile Image\" loading=\"lazy\">\n      <h2>Professional Summary</h2>\n      <p>" : String).data ∈ templateParts c := by
  unfold templateParts
  repeat
    first
    | exact List.mem_cons_self _ _
    | apply List.mem_cons_of_mem

theorem headshot_in_template (c : Colors) :
    hasSub hsRef.data (baseTemplate c).data = true := by
  rw [baseTemplate_data]
  exact hasSub_joinl_of_mem (headshot_chunk_mem c) headshot_chunk

theorem render_has_headshot_of (c : Colors)
    (hinit : hasSub hsRef.data (baseTemplate c).data = true)
    (d : SanData) (sk pj : String) :
    hasSub hsRef.data (generatedHtml (baseTemplate c) d sk pj).data = true := by
  obtain ⟨a, b, he⟩ := hasSub_parts hinit
  have hgen : (generatedHtml (baseTemplate c) d sk pj).data =
      chainReplace (renderSteps d sk pj) (baseTemplate c).data := rfl
  rw [hgen, he]
  have hsfst : ∀ s ∈ renderSteps d sk pj, s.1 ∈ toksL := by
    intro s hs
    rw [← renderSteps_fst d sk pj]
    exact List.mem_map_of_mem _ hs
  obtain ⟨a2, b2, he2⟩ := chainReplace_preserve
    (fun s hs => toks_avoid_headshot s.1 (hsfst s hs)) a b
  rw [he2]
  exact hasSub_sandwich a2 b2 (by decide)

set_option maxRecDepth 100000 in
/-- The rendered document of any request, for any of the three templates,
contains the fixed `./headshot.jpg` reference. -/
theorem render_has_headshot {tname tmpl : String} (h : templates tname = some tmpl)
    (d : SanData) (sk pj : String) :
    hasSub hsRef.data (generatedHtml tmpl d sk pj).data = true := by
  rcases templates_cases h with he | he | he <;>
    { subst he; exact render_has_headshot_of _ (headshot_in_template _) d sk pj }

/-! ### Character-set facts about generated text -/

theorem digitCh_ne (k : Nat) : digitCh k ≠ '<' ∧ digitCh k ≠ '{' ∧ digitCh k ≠ '}' := by
  unfold digitCh
  split <;> refine ⟨by decide, by decide, by decide⟩

theorem noLt_append {a b : List Char} (ha : noLt a = true) (hb : noLt b = true) :
    noLt (a ++ b) = true := by
  simp only [noLt, List.all_append, Bool.and_eq_true]
  exact ⟨ha, hb⟩

theorem noBrace_append {a b : List Char} (ha : noBrace a = true)
    (hb : noBrace b = true) : noBrace (a ++ b) = true := by
  simp only [noBrace, List.all_append, Bool.and_eq_true]
  exact ⟨ha, hb⟩

theorem natDigAux_chars (fuel n : Nat) :
    noLt (natDigAux fuel n) = true ∧ noBrace (natDigAux fuel n) = true := by
  induction fuel generalizing n with
  | zero => exact ⟨rfl, rfl⟩
  | succ fuel ih =>
    rw [natDigAux]
    split
    · constructor <;>
        simp [noLt, noBrace, (digitCh_ne n).1, (digitCh_ne n).2.1, (digitCh_ne n).2.2]
    · have hd := ih (n / 10)
      have he := digitCh_ne (n % 10)
      exact ⟨noLt_append hd.1 (by simp [noLt, he.1]),
             noBrace_append hd.2 (by simp [noBrace, he.2.1, he.2.2])⟩

theorem natDig_chars (n : Nat) :
    noLt (natDig n) = true ∧ noBrace (natDig n) = true := natDigAux_chars (n + 1) n

theorem intRepr_zero : intRepr 0 = "0" := rfl

theorem noLt_stripAux (b : Bool) (cs : List Char) : noLt (stripAux b cs) = true := by
  induction cs generalizing b with
  | nil => cases b <;> simp [stripAux, noLt]
  | cons c rest ih =>
    cases b
    · by_cases hc : c = '<'
      · simp [stripAux, hc, ih]
      · simpa [stripAux, hc, noLt] using ih false
    · by_cases hc : c = '>'
      · simp [stripAux, hc, ih]
      · simp [stripAux, hc, ih]

theorem noLt_sanitizeHtml (s : String) : noLt (sanitizeHtml s).data = true :=
  noLt_stripAux false s.data

theorem noLt_sanitizeVal (o : Option JsonVal) : noLt (sanitizeVal o).data = true := by
  unfold sanitizeVal
  split
  · decide
  · decide
  · exact noLt_sanitizeHtml _

theorem noLt_parseProject_link (v : JsonVal) :
    noLt (parseProject v).link.data = true := by
  unfold parseProject
  simp only
  split
  · split
    · exact noLt_sanitizeHtml _
    · decide
  · decide

theorem noLt_jsOrStr {a b : String} (ha : noLt a.data = true)
    (hb : noLt b.data = true) : noLt (jsOrStr a b).data = true := by
  unfold jsOrStr
  split <;> assumption

theorem noLt_natChars (n : Nat) : noLt (natChars n).data = true := (natDig_chars n).1

/-! ### Claim C4: proficiency width -/

/-- C4 (amended): in the generated skills markup, the rendered width is the
decimal form of the i-th proficiency when it is a number; when the
proficiency is falsy (0, null, false, empty string) the width is 0; but a
truthy non-numeric proficiency is interpolated as its own string form, not
as 0. -/
theorem c4_width (profs : List JsonVal) (i : Nat) (h : i < profs.length) :
    widthOf (.arr profs) i =
      (match profs.get ⟨i, h⟩ with
       | .num n => intRepr n
       | v => if jsTruthy v then jsDisplay v else "0") := by
  simp only [widthOf, jsIndex]
  rw [List.get?_eq_get h]
  rcases hv : profs.get ⟨i, h⟩ with s | n | bb | - | xs | flds
  · simp only [jsOrVal, jsTruthy]
    by_cases hs : s.isEmpty
    · simp only [hs, Bool.not_true, Bool.false_eq_true, if_false]
      exact intRepr_zero
    · simp only [hs, Bool.not_false, if_true]
  · simp only [jsOrVal, jsTruthy]
    by_cases hn : n = 0
    · subst hn
      simp only [bne_self_eq_false, Bool.false_eq_true, if_false]
      exact intRepr_zero
    · have hb : (n != 0) = true := by simpa using hn
      simp only [hb, if_true]
      rfl
  · cases bb
    · simp only [jsOrVal, jsTruthy, Bool.false_eq_true, if_false]
      exact intRepr_zero
    · simp only [jsOrVal, jsTruthy, if_true]
  · simp only [jsOrVal, jsTruthy, Bool.false_eq_true, if_false]
    exact intRepr_zero
  · simp only [jsOrVal, jsTruthy, if_true]
  · simp only [jsOrVal, jsTruthy, if_true]

/-! ### Claim C8: project inclusion and link anchors -/

theorem allRefuted_of_noLt {p q t : List Char} (hq : noLt q = true)
    (hp : p = '<' :: t) : allRefuted p q = true := by
  induction q with
  | nil => simp [allRefuted]
  | cons c s ih =>
    have hq' : ((c != '<') && noLt s) = true := hq
    simp only [Bool.and_eq_true, bne_iff_ne, ne_eq] at hq'
    simp only [allRefuted, Bool.and_eq_true]
    constructor
    · subst hp
      simp only [refutedIn, Bool.or_eq_true, bne_iff_ne, ne_eq]
      exact Or.inl fun he => hq'.1 he.symm
    · exact ih hq'.2

theorem projBlock_no_anchor (i : Nat) (p : PProj)
    (ht : noLt p.title.data = true) (hd : noLt p.description.data = true)
    (hc : noLt p.category.data = true) (hl : p.link.isEmpty = true) :
    hasSub aTag.data (projBlock i p).data = false := by
  have h1 : allRefuted aTag.data (natChars (100 + i * 100)).data = true :=
    allRefuted_of_noLt (noLt_natChars _) rfl
  have h2 : allRefuted aTag.data (jsOrStr p.title ("Project " ++ natChars (i + 1))).data
      = true := by
    refine allRefuted_of_noLt (noLt_jsOrStr ht ?_) rfl
    exact noLt_append (by decide) (noLt_natChars _)
  have h3 : allRefuted aTag.data
      (jsOrStr p.description "No description provided").data = true :=
    allRefuted_of_noLt (noLt_jsOrStr hd (by decide)) rfl
  have h4 : allRefuted aTag.data (jsOrStr p.category "General").data = true :=
    allRefuted_of_noLt (noLt_jsOrStr hc (by decide)) rfl
  simp only [projBlock, if_pos hl, str_data_append, List.append_assoc, List.nil_append]
  rw [hasSub_skip _ (by decide), hasSub_skip _ h1, hasSub_skip _ (by decide),
    hasSub_skip _ h2, hasSub_skip _ (by decide), hasSub_skip _ h3,
    hasSub_skip _ (by decide), hasSub_skip _ (by decide), hasSub_skip _ h4]
  decide

theorem projBlock_anchor (i : Nat) (p : PProj) (hl : p.link.isEmpty = false) :
    hasSub aTag.data (projBlock i p).data = true := by
  simp only [projBlock, hl, Bool.false_eq_true, if_false, str_data_append,
    List.append_assoc]
  iterate 9 apply hasSub_append_of_right
  apply hasSub_append_of_left
  decide

/-- C8: a project from the parsed projects list is included in the
generated fragment iff both its sanitized title and sanitized description
are non-empty, and an included project's block contains the link anchor
element iff a non-empty link is present on the parsed project. -/
theorem c8_projects (raw : List JsonVal) (p : PProj) (i : Nat)
    (hp : p ∈ raw.map parseProject) :
    (p ∈ includedProjects (raw.map parseProject) ↔
      p.title ≠ "" ∧ p.description ≠ "")
    ∧ (hasSub aTag.data (projBlock i p).data = true ↔ p.link ≠ "") := by
  have e1 : ∀ t : String, t.isEmpty = false ↔ t ≠ "" := by
    intro t
    constructor
    · intro h he
      subst he
      exact absurd h (by decide)
    · intro h
      cases hx : t.isEmpty
      · rfl
      · exact absurd ((String.isEmpty_iff t).mp (by simp [hx])) h
  constructor
  · rw [includedProjects, List.mem_filter]
    simp only [hp, true_and, Bool.and_eq_true, Bool.not_eq_true']
    rw [e1, e1]
  · obtain ⟨v, hv, he⟩ := List.mem_map.mp hp
    have ht : noLt p.title.data = true := by
      rw [← he]; exact noLt_sanitizeVal _
    have hd : noLt p.description.data = true := by
      rw [← he]; exact noLt_sanitizeVal _
    have hc : noLt p.category.data = true := by
      rw [← he]; exact noLt_sanitizeVal _
    constructor
    · intro ha
      intro hne
      have hl : p.link.isEmpty = true := by rw [hne]; rfl
      rw [projBlock_no_anchor i p ht hd hc hl] at ha
      exact Bool.false_ne_true ha
    · intro hne
      have hl : p.link.isEmpty = false := by
        cases hx : p.link.isEmpty
        · rfl
        · exact absurd ((String.isEmpty_iff _).mp (by simp [hx])) hne
      exact projBlock_anchor i p hl

/-! ### Claim C3: full placeholder substitution -/

set_option maxRecDepth 100000 in
/-- C3 (amended): substitution is global, and provided none of the
substituted values — the sanitized fields and the generated skills and
projects fragments — contains a brace character or a dollar character, the
fully rendered document contains zero occurrences of every placeholder
token. Without the brace proviso the claim fails: a value substituted by a
late step can carry a placeholder token into the output (see the
counterexample); without the dollar proviso it fails too, since a value
such as the two-character text dollar-ampersand triggers the
GetSubstitution expansion of `.replace` and re-inserts the matched
placeholder token. -/
theorem c3_render_no_placeholder (tname tmpl : String)
    (h : templates tname = some tmpl) (d : SanData) (skillsH projectsH : String)
    (h1 : plainRep d.name.data = true) (h2 : plainRep d.profession.data = true)
    (h3 : plainRep d.tagline.data = true) (h4 : plainRep d.summary.data = true)
    (h5 : plainRep d.about.data = true) (h6 : plainRep d.email.data = true)
    (h7 : plainRep d.linkedin.data = true) (h8 : plainRep d.phone.data = true)
    (h9 : plainRep d.keywords.data = true) (h10 : plainRep skillsH.data = true)
    (h11 : plainRep projectsH.data = true)
    (ph : String) (hph : ph ∈ placeholders) :
    hasSub ph.data (generatedHtml tmpl d skillsH projectsH).data = false := by
  have hreps : ∀ s ∈ renderSteps d skillsH projectsH, plainRep s.2 = true := by
    intro s hs
    simp only [renderSteps, List.mem_cons, List.not_mem_nil, or_false] at hs
    rcases hs with rfl | rfl | rfl | rfl | rfl | rfl | rfl | rfl | rfl | rfl | rfl
    · exact plainRep_jsOrStr h1 (by decide)
    · exact plainRep_jsOrStr h2 (by decide)
    · exact plainRep_jsOrStr h3 (by decide)
    · exact plainRep_jsOrStr h4 (by decide)
    · exact plainRep_jsOrStr h5 (by decide)
    · exact plainRep_jsOrStr h6 (by decide)
    · exact plainRep_jsOrStr h7 (by decide)
    · exact plainRep_jsOrStr h8 (by decide)
    · exact plainRep_jsOrStr h9 (by decide)
    · exact h10
    · exact h11
  have hphL : ph.data ∈ toksL := by
    simp only [placeholders, List.mem_cons, List.not_mem_nil, or_false] at hph
    rcases hph with rfl | rfl | rfl | rfl | rfl | rfl | rfl | rfl | rfl | rfl | rfl <;>
      decide
  rcases templates_cases h with he | he | he <;> subst he
  · exact render_good _ (good_of_partsGood partsGood_default) d _ _ hreps hphL
  · exact render_good _ (good_of_partsGood partsGood_dark) d _ _ hreps hphL
  · exact render_good _ (good_of_partsGood partsGood_vibrant) d _ _ hreps hphL

theorem c3_render_no_placeholder_witness :
    hasSub phName.data
      (generatedHtml (baseTemplate darkColors)
        ⟨"Ada Lovelace", "Engineer", "", "", "", "ada@example.com", "", "", "C++"⟩
        "" "").data = false :=
  c3_render_no_placeholder "dark" _ rfl _ "" "" (by decide) (by decide) (by decide)
    (by decide) (by decide) (by decide) (by decide) (by decide) (by decide)
    (by decide) (by decide) phName (by decide)

set_option maxRecDepth 200000 in
/-- C3 counterexample: for the valid request with template `dark`, name
"Ada Lovelace", profession "Engineer", email "ada@example.com", one skill
"C++" with proficiency 80 and one project whose title is the literal text
`{name}` (with description "desc"), the fully rendered document still
contains the `{name}` placeholder token: the projects fragment is
substituted last, so the token it carries is never replaced. -/
theorem c3_counterexample :
    hasSub phName.data
      (generatedHtml (baseTemplate darkColors)
        (sanitizedDataOf
          ⟨some "Ada Lovelace", some "Engineer", none, none, none,
           some "ada@example.com", none, none,
           some (.ok (.arr [.str "C++"])), some (.ok (.arr [.num 80])),
           some (.ok (.arr [.obj [("title", .str "\x7bname\x7d"),
             ("description", .str "desc")]])),
           some "dark"⟩
          ["C++"])
        (skillsHtml ["C++"] (.arr [.num 80]))
        (projectsHtml [parseProject (.obj [("title", .str "\x7bname\x7d"),
          ("description", .str "desc")])])).data = true := by
  rw [render_chain_eq darkColors (good_of_partsGood partsGood_dark) _ _ _ (by decide)
    (by decide)]
  have hmem : (projectsHtml [parseProject (.obj [("title", .str "\x7bname\x7d"),
      ("description", .str "desc")])]).data ∈
      chainParts
        (renderSteps
          (sanitizedDataOf
            ⟨some "Ada Lovelace", some "Engineer", none, none, none,
             some "ada@example.com", none, none,
             some (.ok (.arr [.str "C++"])), some (.ok (.arr [.num 80])),
             some (.ok (.arr [.obj [("title", .str "\x7bname\x7d"),
               ("description", .str "desc")]])),
             some "dark"⟩
            ["C++"])
          (skillsHtml ["C++"] (.arr [.num 80]))
          (projectsHtml [parseProject (.obj [("title", .str "\x7bname\x7d"),
            ("description", .str "desc")])]))
        (templateParts darkColors) := by decide
  exact hasSub_joinl_of_mem hmem (by decide)

/-! ### Claims about the handler's control flow -/

theorem commitLoop_ok (env : RemoteEnv) (repo : String)
    (files : List (String × String))
    (hok : ∀ x ∈ files, env.commitOk x.1 = true) :
    commitLoop env repo files =
      (files.map fun x => RemoteCall.commitFile repo x.1, none) := by
  induction files with
  | nil => rfl
  | cons x rest ih =>
    obtain ⟨p, c⟩ := x
    rw [commitLoop]
    rw [hok (p, c) (by simp), ih fun y hy => hok y (by simp [hy])]
    simp

/-- C5: for every request whose name, profession, or email field is missing
or empty, the endpoint responds with a 400 input error and no remote
repository-creation call (indeed no remote call at all) is issued. -/
theorem c5_missing_required (user : String) (env : RemoteEnv) (now : Nat)
    (b : Body) (cv image : Option UpFile)
    (h : optTruthy b.name = false ∨ optTruthy b.profession = false ∨
      optTruthy b.email = false) :
    (endpointGenerate user env now b cv image).status = 400 ∧
    (endpointGenerate user env now b cv image).remote = [] := by
  unfold endpointGenerate
  cases hm : multerCheck cv image with
  | some m => exact ⟨rfl, rfl⟩
  | none =>
    unfold apiGenerate
    have hc : (!(optTruthy b.name && optTruthy b.profession &&
        optTruthy b.email)) = true := by
      rcases h with h | h | h <;> simp [h]
    rw [if_pos hc]
    exact ⟨rfl, rfl⟩

theorem c5_missing_required_witness :
    (endpointGenerate "user" allOk 0
      ⟨none, some "Engineer", none, none, none, some "ada@example.com", none,
       none, none, none, none, some "dark"⟩ none none).status = 400 ∧
    (endpointGenerate "user" allOk 0
      ⟨none, some "Engineer", none, none, none, some "ada@example.com", none,
       none, none, none, none, some "dark"⟩ none none).remote = [] :=
  c5_missing_required "user" allOk 0 _ none none (Or.inl rfl)

/-- C7: for an otherwise-valid request in which the hosting-enable call
fails, the handler responds with a 500 publishing error, and the
repository-create call was issued exactly once before the failure; no
further remote call is made (the created repository is left in place, with
no rollback call). -/
theorem c7_pages_failure (user : String) (env : RemoteEnv) (now : Nat)
    (b : Body) (cv image : Option UpFile)
    (hm : multerCheck cv image = none)
    (hreq : (optTruthy b.name && optTruthy b.profession &&
      optTruthy b.email) = true)
    (hemail : emailRegexTest (optStr b.email) = true)
    {tmpl : String} (htmpl : tmplLookup b.template = some tmpl)
    {sk : List String} (hsk : parseSkills b.skills = .ok sk)
    {pf : JsonVal} (hpf : parseProfs b.skillProficiencies = .ok pf)
    {pj : List PProj} (hpj : parseProjectsF b.projects = .ok pj)
    (hlen : lengthMismatch sk pf = false)
    (hcr : env.createOk = true) (hpg : env.pagesOk = false) :
    (endpointGenerate user env now b cv image).status = 500 ∧
    (endpointGenerate user env now b cv image).remote =
      [RemoteCall.createRepo (repoNameOf (sanitizedDataOf b sk).name now),
       RemoteCall.createPages (repoNameOf (sanitizedDataOf b sk).name now)] := by
  simp only [endpointGenerate, hm, apiGenerate, hreq, Bool.not_true,
    Bool.false_eq_true, if_false, hemail, htmpl, hsk, hpf, hpj, publishStage,
    hlen, hcr, hpg, Bool.not_false, if_true]
  exact ⟨trivial, trivial⟩

theorem c7_pages_failure_witness :
    (endpointGenerate "user" ⟨true, false, fun _ => true⟩ 0 adaBody
      none none).status = 500 ∧
    (endpointGenerate "user" ⟨true, false, fun _ => true⟩ 0 adaBody
      none none).remote =
      [RemoteCall.createRepo (repoNameOf (sanitizedDataOf adaBody ["C++"]).name 0),
       RemoteCall.createPages
         (repoNameOf (sanitizedDataOf adaBody ["C++"]).name 0)] :=
  c7_pages_failure "user" ⟨true, false, fun _ => true⟩ 0 adaBody none none rfl
    (by decide) (by decide) rfl rfl rfl rfl (by decide) rfl rfl

set_option maxRecDepth 20000 in
/-- C9: the end-to-end scenario (name "Ada Lovelace", profession
"Engineer", email "ada@example.com", template `dark`, skills ["C++"] with
proficiencies [80], one titled project and no uploaded files) succeeds with
the URL `https://{user}.github.io/eportfolio-ada-lovelace-{timestamp}` and
exactly one committed artifact, `index.html`. -/
theorem c9_scenario (user : String) (now : Nat) :
    (endpointGenerate user allOk now adaBody none none).status = 200 ∧
    (endpointGenerate user allOk now adaBody none none).body =
      .urlOf ("https://" ++ user ++ ".github.io/" ++
        ("eportfolio-ada-lovelace-" ++ natChars now)) ∧
    commitPaths (endpointGenerate user allOk now adaBody none none).remote =
      ["index.html"] := by
  refine ⟨rfl, ?_, rfl⟩
  show RespBody.urlOf ("https://" ++ user ++ ".github.io/" ++
      repoNameOf (sanitizedDataOf adaBody ["C++"]).name now) = _
  have hname : repoNameOf (sanitizedDataOf adaBody ["C++"]).name now =
      "eportfolio-ada-lovelace-" ++ natChars now := by
    unfold repoNameOf
    have h1 : wsDash (jsLower (sanitizedDataOf adaBody ["C++"]).name) =
        "ada-lovelace" := rfl
    rw [h1]
    have h2 : ("eportfolio-" ++ "ada-lovelace" : String) = "eportfolio-ada-lovelace" := rfl
    rw [h2]
    have h3 : ∀ t : String, ("eportfolio-ada-lovelace" ++ "-") ++ t =
        "eportfolio-ada-lovelace-" ++ t := fun t => rfl
    rw [h3]
  rw [hname]

/-- C2 (amended): a request that passes the required-field, email and
template validations but whose skills, skillProficiencies, or projects
field is not parseable JSON is answered with a 500 server error — the
`JSON.parse` exception reaches the generic catch handler — not a 400-class
input error; no remote call is issued. -/
theorem c2_parse_error (user : String) (env : RemoteEnv) (now : Nat)
    (b : Body) (cv image : Option UpFile)
    (hm : multerCheck cv image = none)
    (hreq : (optTruthy b.name && optTruthy b.profession &&
      optTruthy b.email) = true)
    (hemail : emailRegexTest (optStr b.email) = true)
    {tmpl : String} (htmpl : tmplLookup b.template = some tmpl)
    (herr : (∃ m, parseSkills b.skills = .error m) ∨
      (∃ m, parseProfs b.skillProficiencies = .error m) ∨
      (∃ m, parseProjectsF b.projects = .error m)) :
    (endpointGenerate user env now b cv image).status = 500 ∧
    (endpointGenerate user env now b cv image).remote = [] := by
  simp only [endpointGenerate, hm, apiGenerate, hreq, Bool.not_true,
    Bool.false_eq_true, if_false, hemail, htmpl]
  rcases herr with ⟨m, he⟩ | ⟨m, he⟩ | ⟨m, he⟩
  · rw [he]
    exact ⟨rfl, rfl⟩
  · cases hsk : parseSkills b.skills with
    | error m2 => exact ⟨rfl, rfl⟩
    | ok sk =>
      rw [he]
      exact ⟨rfl, rfl⟩
  · cases hsk : parseSkills b.skills with
    | error m2 => exact ⟨rfl, rfl⟩
    | ok sk =>
      cases hpf : parseProfs b.skillProficiencies with
      | error m3 => exact ⟨rfl, rfl⟩
      | ok pf =>
        rw [he]
        exact ⟨rfl, rfl⟩

theorem c2_parse_error_witness :
    (endpointGenerate "user" allOk 0
      { adaBody with skills := some (.error "Unexpected token") }
      none none).status = 500 ∧
    (endpointGenerate "user" allOk 0
      { adaBody with skills := some (.error "Unexpected token") }
      none none).remote = [] :=
  c2_parse_error "user" allOk 0 _ none none rfl (by decide) (by decide) rfl
    (Or.inl ⟨"Unexpected token", rfl⟩)

/-- C2 counterexample: for the otherwise-valid scenario request whose
skills field is the unparseable text (parse outcome: SyntaxError), the
response status is 500, not a 400-class status. -/
theorem c2_counterexample :
    (endpointGenerate "user" allOk 0
      { adaBody with skills := some (.error "Unexpected token") }
      none none).status = 500 ∧
    ¬(400 ≤ (endpointGenerate "user" allOk 0
        { adaBody with skills := some (.error "Unexpected token") }
        none none).status ∧
      (endpointGenerate "user" allOk 0
        { adaBody with skills := some (.error "Unexpected token") }
        none none).status < 500) := by
  constructor
  · rfl
  · intro h
    have h5 : (endpointGenerate "user" allOk 0
        { adaBody with skills := some (.error "Unexpected token") }
        none none).status = 500 := rfl
    rw [h5] at h
    omega

/-- C6: for every request carrying an uploaded file violating an upload
constraint (a cv part whose MIME type is not `application/pdf`, an image
part whose MIME type is neither `image/jpeg` nor `image/png`, or any file
larger than 5 MiB), the whole request fails with a 400 client error before
any remote call and before any local side effect. -/
theorem c6_upload_reject (user : String) (env : RemoteEnv) (now : Nat)
    (b : Body) (cv image : Option UpFile)
    (h : (∃ f, cv = some f ∧ f.fieldname = "cv" ∧
        f.mimetype ≠ "application/pdf") ∨
      (∃ f, image = some f ∧ f.fieldname = "image" ∧
        f.mimetype ≠ "image/jpeg" ∧ f.mimetype ≠ "image/png") ∨
      (∃ f, (cv = some f ∨ image = some f) ∧ f.size > 5 * 1024 * 1024)) :
    (endpointGenerate user env now b cv image).status = 400 ∧
    (endpointGenerate user env now b cv image).remote = [] ∧
    (endpointGenerate user env now b cv image).fsOps = [] := by
  have hsome : ∃ m, multerCheck cv image = some m := by
    rcases h with ⟨f, hf, hfn, hmt⟩ | ⟨f, hf, hfn, hmt1, hmt2⟩ | ⟨f, hor, hsz⟩
    · have hferr : fileFilterErr f = some "CV must be a PDF file" := by
        unfold fileFilterErr
        rw [if_pos (by simp [hfn, hmt])]
      refine ⟨"CV must be a PDF file", ?_⟩
      unfold multerCheck
      rw [hf]
      simp only [Option.bind]
      rw [hferr]
    · cases hc1 : cv.bind fileFilterErr with
      | some m =>
        refine ⟨m, ?_⟩
        unfold multerCheck
        rw [hc1]
      | none =>
        have hferr : fileFilterErr f = some "Profile image must be a JPEG or PNG file" := by
          unfold fileFilterErr
          rw [if_neg (by simp [hfn]), if_pos (by simp [hfn, hmt1, hmt2])]
        refine ⟨"Profile image must be a JPEG or PNG file", ?_⟩
        unfold multerCheck
        rw [hc1, hf]
        simp only [Option.bind]
        rw [hferr]
    · have hserr : sizeErr f = some "File too large" := by
        unfold sizeErr
        rw [if_pos hsz]
      cases hc1 : cv.bind fileFilterErr with
      | some m =>
        refine ⟨m, ?_⟩
        unfold multerCheck
        rw [hc1]
      | none =>
        cases hc2 : image.bind fileFilterErr with
        | some m =>
          refine ⟨m, ?_⟩
          unfold multerCheck
          rw [hc1, hc2]
        | none =>
          rcases hor with hf | hf
          · refine ⟨"File too large", ?_⟩
            unfold multerCheck
            rw [hc1, hc2, hf]
            simp only [Option.bind]
            rw [hserr]
          · cases hc3 : cv.bind sizeErr with
            | some m =>
              refine ⟨m, ?_⟩
              unfold multerCheck
              rw [hc1, hc2, hc3]
            | none =>
              refine ⟨"File too large", ?_⟩
              unfold multerCheck
              rw [hc1, hc2, hc3, hf]
              simp only [Option.bind]
              rw [hserr]
  obtain ⟨m, hm⟩ := hsome
  simp only [endpointGenerate, hm]
  exact ⟨trivial, trivial, trivial⟩

theorem c6_upload_reject_witness :
    (endpointGenerate "user" allOk 0 adaBody
      (some ⟨"cv", "resume.txt", "text/plain", 100, "x"⟩) none).status = 400 ∧
    (endpointGenerate "user" allOk 0 adaBody
      (some ⟨"cv", "resume.txt", "text/plain", 100, "x"⟩) none).remote = [] ∧
    (endpointGenerate "user" allOk 0 adaBody
      (some ⟨"cv", "resume.txt", "text/plain", 100, "x"⟩) none).fsOps = [] :=
  c6_upload_reject "user" allOk 0 adaBody _ none
    (Or.inl ⟨_, rfl, rfl, by decide⟩)

/-- C10: for every accepted request with an uploaded image — whatever its
MIME type (JPEG or PNG) or original extension — the image is staged to and
committed under the fixed name `headshot.jpg`, and the generated document
references `./headshot.jpg`. -/
theorem c10_headshot (user : String) (env : RemoteEnv) (now : Nat) (b : Body)
    (cv image : Option UpFile) (f : UpFile)
    (hm : multerCheck cv image = none)
    (himg : image = some f)
    (hreq : (optTruthy b.name && optTruthy b.profession &&
      optTruthy b.email) = true)
    (hemail : emailRegexTest (optStr b.email) = true)
    {tmpl : String} (htmpl : tmplLookup b.template = some tmpl)
    {sk : List String} (hsk : parseSkills b.skills = .ok sk)
    {pf : JsonVal} (hpf : parseProfs b.skillProficiencies = .ok pf)
    {pj : List PProj} (hpj : parseProjectsF b.projects = .ok pj)
    (hlen : lengthMismatch sk pf = false)
    (hcr : env.createOk = true) (hpg : env.pagesOk = true)
    (hco : ∀ p, env.commitOk p = true) :
    RemoteCall.commitFile (repoNameOf (sanitizedDataOf b sk).name now)
        "headshot.jpg" ∈ (endpointGenerate user env now b cv image).remote ∧
    FsOp.copyF (storedOf now f).path
        ("temp/" ++ repoNameOf (sanitizedDataOf b sk).name now ++ "/headshot.jpg") ∈
      (endpointGenerate user env now b cv image).fsOps ∧
    hasSub hsRef.data (generatedHtml tmpl (sanitizedDataOf b sk)
      (skillsHtml sk pf) (projectsHtml pj)).data = true := by
  have hdoc : hasSub hsRef.data (generatedHtml tmpl (sanitizedDataOf b sk)
      (skillsHtml sk pf) (projectsHtml pj)).data = true := by
    cases ht : b.template with
    | none => rw [ht] at htmpl; exact absurd htmpl (by simp [tmplLookup])
    | some tname =>
      rw [ht] at htmpl
      exact render_has_headshot htmpl _ _ _
  subst himg
  refine ⟨?_, ?_, hdoc⟩ <;>
  · simp only [endpointGenerate, hm, apiGenerate, hreq, Bool.not_true,
      Bool.false_eq_true, if_false, hemail, htmpl, hsk, hpf, hpj, publishStage,
      hlen, hcr, hpg, Bool.not_false, if_true, Option.map]
    rw [commitLoop_ok env _ _ (fun x _ => hco x.1)]
    simp [List.mem_append]

theorem c10_headshot_witness :
    RemoteCall.commitFile (repoNameOf (sanitizedDataOf adaBody ["C++"]).name 0)
        "headshot.jpg" ∈
      (endpointGenerate "user" allOk 0 adaBody none
        (some ⟨"image", "me.png", "image/png", 100, "img"⟩)).remote ∧
    FsOp.copyF (storedOf 0 ⟨"image", "me.png", "image/png", 100, "img"⟩).path
        ("temp/" ++ repoNameOf (sanitizedDataOf adaBody ["C++"]).name 0 ++
          "/headshot.jpg") ∈
      (endpointGenerate "user" allOk 0 adaBody none
        (some ⟨"image", "me.png", "image/png", 100, "img"⟩)).fsOps ∧
    hasSub hsRef.data
      (generatedHtml (baseTemplate darkColors) (sanitizedDataOf adaBody ["C++"])
        (skillsHtml ["C++"] (.arr [.num 80]))
        (projectsHtml [parseProject (.obj [("title", .str "Engine"),
          ("description", .str "desc")])])).data = true :=
  c10_headshot "user" allOk 0 adaBody none
    (some ⟨"image", "me.png", "image/png", 100, "img"⟩)
    ⟨"image", "me.png", "image/png", 100, "img"⟩ rfl rfl (by decide) (by decide)
    rfl rfl rfl rfl (by decide) rfl rfl (fun _ => rfl)

set_option maxRecDepth 8000 in
/-- C1 (amended): temporary resources are removed only on the fully
successful path. When the handler responds 200 the staging directory it
created is removed and each stored upload is unlinked before returning; on
every other exit path (input error or publishing error) the handler
returns without performing any removal. -/
theorem c1_cleanup (user : String) (env : RemoteEnv) (now : Nat) (b : Body)
    (cv image : Option UpFile) :
    ((endpointGenerate user env now b cv image).status ≠ 200 ∧
      (∀ p, FsOp.rmRec p ∉ (endpointGenerate user env now b cv image).fsOps ∧
        FsOp.unlink p ∉ (endpointGenerate user env now b cv image).fsOps)) ∨
    ((endpointGenerate user env now b cv image).status = 200 ∧
      (∀ p, FsOp.mkdirp p ∈ (endpointGenerate user env now b cv image).fsOps →
        FsOp.rmRec p ∈ (endpointGenerate user env now b cv image).fsOps) ∧
      (∀ f, cv = some f → FsOp.unlink (storedOf now f).path ∈
        (endpointGenerate user env now b cv image).fsOps) ∧
      (∀ f, image = some f → FsOp.unlink (storedOf now f).path ∈
        (endpointGenerate user env now b cv image).fsOps)) := by
  have hfs0 : ∀ p,
      FsOp.rmRec p ∉
        ((match cv.map (storedOf now) with
          | some f => [FsOp.uploadWrite f.path]
          | none => []) ++
         (match image.map (storedOf now) with
          | some f => [FsOp.uploadWrite f.path]
          | none => [])) ∧
      FsOp.unlink p ∉
        ((match cv.map (storedOf now) with
          | some f => [FsOp.uploadWrite f.path]
          | none => []) ++
         (match image.map (storedOf now) with
          | some f => [FsOp.uploadWrite f.path]
          | none => [])) := by
    intro p
    cases cv <;> cases image <;> simp [Option.map]
  cases hmc : multerCheck cv image with
  | some m =>
    simp only [endpointGenerate, hmc]
    left
    exact ⟨by simp, fun p => by simp⟩
  | none =>
    simp only [endpointGenerate, hmc]
    cases hreq : optTruthy b.name && optTruthy b.profession && optTruthy b.email with
    | false =>
      simp only [apiGenerate, hreq, Bool.not_false, if_true]
      left
      exact ⟨by simp, hfs0⟩
    | true =>
    cases hem : emailRegexTest (optStr b.email) with
    | false =>
      simp only [apiGenerate, hreq, hem, Bool.not_true, Bool.not_false,
        Bool.false_eq_true, if_false, if_true]
      left
      exact ⟨by simp, hfs0⟩
    | true =>
    cases htl : tmplLookup b.template with
    | none =>
      simp only [apiGenerate, hreq, hem, htl, Bool.not_true, Bool.false_eq_true,
        if_false]
      left
      exact ⟨by simp, hfs0⟩
    | some tmpl =>
    cases hsk : parseSkills b.skills with
    | error m =>
      simp only [apiGenerate, hreq, hem, htl, hsk, Bool.not_true,
        Bool.false_eq_true, if_false]
      left
      exact ⟨by simp, hfs0⟩
    | ok sk =>
    cases hpf : parseProfs b.skillProficiencies with
    | error m =>
      simp only [apiGenerate, hreq, hem, htl, hsk, hpf, Bool.not_true,
        Bool.false_eq_true, if_false]
      left
      exact ⟨by simp, hfs0⟩
    | ok pf =>
    cases hpj : parseProjectsF b.projects with
    | error m =>
      simp only [apiGenerate, hreq, hem, htl, hsk, hpf, hpj, Bool.not_true,
        Bool.false_eq_true, if_false]
      left
      exact ⟨by simp, hfs0⟩
    | ok pj =>
    simp only [apiGenerate, hreq, hem, htl, hsk, hpf, hpj, Bool.not_true,
      Bool.false_eq_true, if_false, publishStage]
    cases hlen : lengthMismatch sk pf with
    | true =>
      simp only [if_true]
      left
      exact ⟨by simp, hfs0⟩
    | false =>
    simp only [Bool.false_eq_true, if_false]
    cases hcr : env.createOk with
    | false =>
      simp only [hcr, Bool.not_false, if_true]
      left
      exact ⟨by simp, hfs0⟩
    | true =>
    simp only [hcr, Bool.not_true, Bool.false_eq_true, if_false]
    cases hpg : env.pagesOk with
    | false =>
      simp only [hpg, Bool.not_false, if_true]
      left
      exact ⟨by simp, hfs0⟩
    | true =>
    simp only [hpg, Bool.not_true, Bool.false_eq_true, if_false]
    split
    · -- a commit failed: staging was created, no removal happened
      left
      refine ⟨by simp, fun p => ?_⟩
      have h0 := hfs0 p
      cases cv <;> cases image <;> simp_all [Option.map, List.mem_append]
    · -- success: the staging directory is removed and uploads unlinked
      right
      refine ⟨by simp, fun p hp => ?_, fun f hf => ?_, fun f hf => ?_⟩
      · cases cv <;> cases image <;>
          simp_all [Option.map, List.mem_append]
      · subst hf
        cases image <;> simp [Option.map, List.mem_append]
      · subst hf
        cases cv <;> simp [Option.map, List.mem_append]

theorem c1_cleanup_witness :
    FsOp.rmRec ("temp/" ++ repoNameOf (sanitizedDataOf adaBody ["C++"]).name 0) ∈
      (endpointGenerate "user" allOk 0 adaBody none none).fsOps := by
  rcases c1_cleanup "user" allOk 0 adaBody none none with ⟨hne, -⟩ | ⟨-, hmk, -, -⟩
  · exact absurd rfl hne
  · exact hmk _ (by decide)

/-- C1 counterexample: a request with an accepted cv upload but a missing
name is answered with a 400 input error, and the handler returns with the
stored upload still in place: the temporary file was created
(`uploadWrite`) but never removed (no `unlink`). -/
theorem c1_counterexample :
    (endpointGenerate "user" allOk 0 { adaBody with name := none }
      (some ⟨"cv", "resume.pdf", "application/pdf", 100, "pdf"⟩) none).status
      = 400 ∧
    FsOp.uploadWrite
        (storedOf 0 ⟨"cv", "resume.pdf", "application/pdf", 100, "pdf"⟩).path ∈
      (endpointGenerate "user" allOk 0 { adaBody with name := none }
        (some ⟨"cv", "resume.pdf", "application/pdf", 100, "pdf"⟩) none).fsOps ∧
    FsOp.unlink
        (storedOf 0 ⟨"cv", "resume.pdf", "application/pdf", 100, "pdf"⟩).path ∉
      (endpointGenerate "user" allOk 0 { adaBody with name := none }
        (some ⟨"cv", "resume.pdf", "application/pdf", 100, "pdf"⟩) none).fsOps := by
  refine ⟨rfl, ?_, ?_⟩ <;> decide

theorem c4_width_witness :
    0 < ([JsonVal.num 80] : List JsonVal).length ∧
    widthOf (.arr [JsonVal.num 80]) 0 = "80" :=
  ⟨by decide, by rw [c4_width [JsonVal.num 80] 0 (by decide)]; decide⟩

/-- C4 counterexample: with skills `["x"]` and parsed proficiencies
`["abc"]` (a truthy non-numeric JSON value), the rendered progress-bar
width is `abc`, not 0: the skills fragment contains `width: abc%`. -/
theorem c4_counterexample :
    widthOf (.arr [JsonVal.str "abc"]) 0 = "abc" ∧
    widthOf (.arr [JsonVal.str "abc"]) 0 ≠ "0" ∧
    hasSub ("width: abc%" : String).data
      (skillsHtml ["x"] (.arr [JsonVal.str "abc"])).data = true := by
  refine ⟨rfl, by decide, by decide⟩

theorem c8_projects_witness :
    (parseProject (.obj [("title", .str "Engine"), ("description", .str "desc"),
        ("link", .str "https://example.com")]) ∈
      includedProjects (List.map parseProject
        [JsonVal.obj [("title", .str "Engine"), ("description", .str "desc"),
          ("link", .str "https://example.com")]]) ↔
      (parseProject (.obj [("title", .str "Engine"), ("description", .str "desc"),
        ("link", .str "https://example.com")])).title ≠ "" ∧
      (parseProject (.obj [("title", .str "Engine"), ("description", .str "desc"),
        ("link", .str "https://example.com")])).description ≠ "")
    ∧ (hasSub aTag.data
        (projBlock 0 (parseProject (.obj [("title", .str "Engine"),
          ("description", .str "desc"),
          ("link", .str "https://example.com")]))).data = true ↔
      (parseProject (.obj [("title", .str "Engine"), ("description", .str "desc"),
        ("link", .str "https://example.com")])).link ≠ "") :=
  c8_projects [JsonVal.obj [("title", .str "Engine"), ("description", .str "desc"),
    ("link", .str "https://example.com")]] _ 0 (by decide)

end EPort
















